import Mathlib

/-!
Verification of the agent orchestration core of
`oliver-os/ai-services/services/agent_orchestrator.py`.

The Python module is shallowly embedded below: Python dictionaries become
insertion-ordered association lists, `datetime.now()` readings become explicit
`Nat` timestamps (in seconds, matching `total_seconds()`; durations are stored
in milliseconds exactly as the source multiplies by 1000), the asynchronous
LLM backend becomes an explicit oracle `provider -> prompt -> Except error
response`, and the interleaving points of the cooperative scheduler (the
`await` on `generate`) are modelled by splitting `spawn_agent` into a start
phase (everything before the backend call) and a finish phase (everything
after it), with a `pending` set of in-flight executions.
-/

/-! ## Association lists modelling Python `dict` (insertion ordered) -/

def dictGet {α : Type} : List (String × α) → String → Option α
  | [], _ => none
  | (k', v) :: rest, k => if k' == k then some v else dictGet rest k

def dictInsert {α : Type} : List (String × α) → String → α → List (String × α)
  | [], k, v => [(k, v)]
  | (k', v') :: rest, k, v =>
      if k' == k then (k, v) :: rest else (k', v') :: dictInsert rest k v

theorem dictGet_insert_self {α : Type} (l : List (String × α)) (k : String) (v : α) :
    dictGet (dictInsert l k v) k = some v := by
  induction l with
  | nil => simp [dictInsert, dictGet]
  | cons p rest ih =>
      obtain ⟨k', v'⟩ := p
      by_cases h : k' = k
      · simp [dictInsert, dictGet, h]
      · have hb : (k' == k) = false := by simp [h]
        simp [dictInsert, dictGet, hb, ih]

theorem dictGet_insert_ne {α : Type} (l : List (String × α)) (k k' : String) (v : α)
    (h : k ≠ k') : dictGet (dictInsert l k v) k' = dictGet l k' := by
  induction l with
  | nil =>
      have hb : (k == k') = false := by simp [h]
      simp [dictInsert, dictGet, hb]
  | cons p rest ih =>
      obtain ⟨k0, v0⟩ := p
      by_cases h0 : k0 = k
      · have hb : (k == k') = false := by simp [h]
        simp [dictInsert, dictGet, h0, hb]
      · have hb : (k0 == k) = false := by simp [h0]
        by_cases h1 : k0 = k'
        · subst h1
          simp [dictInsert, dictGet, hb]
        · have hb1 : (k0 == k') = false := by simp [h1]
          simp [dictInsert, dictGet, hb, hb1, ih]

/-- Membership in the values of an updated association list: every entry of
`dictInsert l k v` is an entry of `l` or carries the new value `v`. -/
theorem mem_dictInsert {α : Type} (l : List (String × α)) (k : String) (v : α) :
    ∀ p ∈ dictInsert l k v, p ∈ l ∨ p.2 = v := by
  induction l with
  | nil => intro p hp; simp [dictInsert] at hp; right; rw [hp]
  | cons q rest ih =>
      intro p hp
      obtain ⟨k0, v0⟩ := q
      by_cases h0 : k0 = k
      · simp [dictInsert, h0] at hp
        rcases hp with h | h
        · right; rw [h]
        · left; simp [h]
      · have hb : (k0 == k) = false := by simp [h0]
        simp [dictInsert, hb] at hp
        rcases hp with h | h
        · left; simp [h]
        · rcases ih p h with h' | h'
          · left; simp [h']
          · right; exact h'

/-! ## Python string helpers -/

/-- Models the Python substring test `sub in s`. -/
def containsSubstr (s sub : String) : Bool :=
  go s.data
where
  go : List Char → Bool
    | [] => sub.data.isPrefixOf []
    | c :: rest => sub.data.isPrefixOf (c :: rest) || go rest

/-- Models Python `str.split(sep)` for a one-character separator.
Structural recursion so that the kernel can evaluate it, unlike core
`String.splitOn`. -/
def splitChar (c : Char) (s : String) : List String :=
  (go s.data).map String.mk
where
  go : List Char → List (List Char)
    | [] => [[]]
    | x :: rest =>
        match go rest with
        | [] => [[]]
        | cur :: rs => if x == c then [] :: cur :: rs else (x :: cur) :: rs

/-- Models Python `str.strip()` (structural). -/
def pyStrip (s : String) : String :=
  String.mk (((s.data.dropWhile Char.isWhitespace).reverse.dropWhile
    Char.isWhitespace).reverse)

/-- Models Python `str.lower()` (structural). -/
def pyLower (s : String) : String :=
  String.mk (s.data.map Char.toLower)

/-- Models Python `sep.join(xs)` (structural). -/
def pyJoin (sep : String) : List String → String
  | [] => ""
  | x :: rest => rest.foldl (fun acc y => acc ++ sep ++ y) x

/-- Models Python `str.startswith(pre)` (structural). -/
def pyStartsWith (pre s : String) : Bool :=
  pre.data.isPrefixOf s.data

/-- Models Python `str.split()` (split on whitespace runs, dropping empties). -/
def pySplit (s : String) : List String :=
  go s.data []
where
  go : List Char → List Char → List String
    | [], cur => if cur.isEmpty then [] else [String.mk cur.reverse]
    | c :: rest, cur =>
        if c.isWhitespace then
          if cur.isEmpty then go rest []
          else String.mk cur.reverse :: go rest []
        else go rest (c :: cur)

/-- Models Python `str.isupper()` for ASCII text: at least one cased character
and no lowercase cased character. -/
def pyIsUpper (s : String) : Bool :=
  s.data.any (fun c => c.isAlpha) && s.data.all (fun c => !c.isLower)

/-- Models Python `str.strip('#')`. -/
def stripChar (c : Char) (s : String) : String :=
  String.mk (((s.data.dropWhile (· == c)).reverse.dropWhile (· == c)).reverse)

/-- Models the Python rendering `str(x)` of an `Optional[str]`. -/
def pyStrOptStr : Option String → String
  | some s => s
  | none => "None"

/-! ## Data model (`agent_orchestrator.py` lines 21-88) -/

inductive AgentStatus
  | idle
  | starting
  | running
  | completed
  | failed
  | stopped
deriving Repr, DecidableEq

def AgentStatus.value : AgentStatus → String
  | .idle => "idle"
  | .starting => "starting"
  | .running => "running"
  | .completed => "completed"
  | .failed => "failed"
  | .stopped => "stopped"

structure AgentDefinition where
  id : String
  display_name : String
  model : String
  tool_names : List String
  spawnable_agents : List String
  instructions_prompt : String
  status : AgentStatus := .idle
  metadata : List (String × String) := []
deriving Repr, DecidableEq

structure SpawnRequest where
  agent_type : String
  prompt : String
  metadata : List (String × String) := []
deriving Repr, DecidableEq

/-- One `{"type": "insight", "content": ...}` entry of `_extract_insights`. -/
structure Insight where
  type : String
  content : String
deriving Repr, DecidableEq

/-- One `{"type": "pattern", "description": ...}` entry of `_extract_patterns`. -/
structure PatternEntry where
  type : String
  description : String
deriving Repr, DecidableEq

/-- One entry of `_extract_inefficiencies`. -/
structure Inefficiency where
  type : String
  description : String
  impact : String
deriving Repr, DecidableEq

/-- The dictionary returned by `_extract_code`. -/
structure CodeExtract where
  blocks : List String
  count : Nat
  total_lines : Nat
deriving Repr, DecidableEq

/-- The agent-type-specific part of the dictionary built by
`_parse_agent_response` (lines 422-446). -/
inductive ParsedFields
  | thoughtProcessor (insights : List Insight) (related_topics : List String)
      (spawned_agents : List String)
  | patternRecognizer (patterns : List PatternEntry) (trends : List String)
  | codeGenerator (generated_code : CodeExtract) (recommendations : List String)
  | bureaucracyDisruptor (inefficiencies : List Inefficiency)
      (automation_opportunities : List String)
  | generic (structured_response : String)
deriving Repr, DecidableEq

/-- The dictionary returned by `_parse_agent_response` (lines 413-448). -/
structure AgentResult where
  agent_id : String
  agent_type : String
  raw_response : String
  timestamp : Nat
  llm_provider : Option String
  fields : ParsedFields
deriving Repr, DecidableEq

structure SpawnedAgent where
  id : String
  agent_type : String
  prompt : String
  status : AgentStatus
  start_time : Nat
  metadata : List (String × String)
  result : Option AgentResult := none
  error : Option String := none
  end_time : Option Nat := none
  duration_ms : Option Nat := none
  llm_provider : Option String := none
deriving Repr, DecidableEq

structure WorkflowStep where
  id : String
  agent : String
  prompt : String
  dependencies : List String
  timeout : Option Nat := none
  retries : Nat := 3
deriving Repr, DecidableEq

structure WorkflowDefinition where
  id : String
  name : String
  description : String
  steps : List WorkflowStep
  agents : List String
  status : String := "idle"
  metadata : List (String × String) := []
deriving Repr, DecidableEq

structure SupervisionMetrics where
  agent_id : String
  status : AgentStatus
  last_heartbeat : Nat
  heartbeat_interval : Nat := 30
  missed_heartbeats : Nat := 0
  tasks_completed : Nat := 0
  tasks_failed : Nat := 0
  health_status : String := "healthy"
deriving Repr, DecidableEq

/-! ## Response extractors (lines 450-537) -/

def extract_insights (response : String) : List Insight :=
  let lines := splitChar '\n' response
  let insights := lines.filterMap (fun line =>
    if pyStrip line != "" &&
        (containsSubstr (pyLower line) "insight" || containsSubstr (pyLower line) "key" ||
         containsSubstr (pyLower line) "finding") then
      some ⟨"insight", pyStrip line⟩
    else none)
  insights.take 5

def extract_topics (response : String) : List String :=
  let topics := (pySplit response).filterMap (fun word =>
    if pyStartsWith "#" word || pyIsUpper word then
      some (pyLower (stripChar '#' word))
    else none)
  topics.take 10

def extract_patterns (response : String) : List PatternEntry :=
  let lines := splitChar '\n' response
  let patterns := lines.filterMap (fun line =>
    if containsSubstr (pyLower line) "pattern" || containsSubstr (pyLower line) "trend" then
      some ⟨"pattern", pyStrip line⟩
    else none)
  patterns.take 5

def extract_trends (response : String) : List String :=
  let trend_keywords := ["increasing", "decreasing", "stable", "growing", "declining"]
  trend_keywords.filter (fun keyword => containsSubstr (pyLower response) keyword)

def extract_code_go (lines : List String) (in_code_block : Bool)
    (current_code : List String) (code_blocks : List String) : List String :=
  match lines with
  | [] => code_blocks
  | line :: rest =>
      if containsSubstr line "```" then
        if in_code_block then
          extract_code_go rest (!in_code_block) []
            (code_blocks ++ [pyJoin "\n" current_code])
        else
          extract_code_go rest (!in_code_block) current_code code_blocks
      else if in_code_block then
        extract_code_go rest in_code_block (current_code ++ [line]) code_blocks
      else
        extract_code_go rest in_code_block current_code code_blocks

def extract_code (response : String) : CodeExtract :=
  let code_blocks := extract_code_go (splitChar '\n' response) false [] []
  { blocks := code_blocks
    count := code_blocks.length
    total_lines := (code_blocks.map (fun block => (splitChar '\n' block).length)).sum }

def extract_recommendations (response : String) : List String :=
  let lines := splitChar '\n' response
  let recommendations := lines.filterMap (fun line =>
    if ["recommend", "suggest", "should", "consider"].any
        (fun keyword => containsSubstr (pyLower line) keyword) then
      some (pyStrip line)
    else none)
  recommendations.take 5

def extract_inefficiencies (response : String) : List Inefficiency :=
  let lines := splitChar '\n' response
  let inefficiencies := lines.filterMap (fun line =>
    if ["inefficient", "bottleneck", "waste", "redundant"].any
        (fun keyword => containsSubstr (pyLower line) keyword) then
      some ⟨"inefficiency", pyStrip line, "medium"⟩
    else none)
  inefficiencies.take 5

def extract_automation_opportunities (response : String) : List String :=
  let lines := splitChar '\n' response
  let opportunities := lines.filterMap (fun line =>
    if containsSubstr (pyLower line) "automate" || containsSubstr (pyLower line) "automatic" then
      some (pyStrip line)
    else none)
  opportunities.take 5

/-- `_parse_agent_response` (lines 411-448); `now` models `datetime.now()`. -/
def parse_agent_response (agent_def : AgentDefinition) (response : String)
    (agent : SpawnedAgent) (now : Nat) : AgentResult :=
  let fields : ParsedFields :=
    if agent_def.id == "thought-processor" then
      .thoughtProcessor (extract_insights response) (extract_topics response)
        agent_def.spawnable_agents
    else if agent_def.id == "pattern-recognizer" then
      .patternRecognizer (extract_patterns response) (extract_trends response)
    else if agent_def.id == "code-generator" then
      .codeGenerator (extract_code response) (extract_recommendations response)
    else if agent_def.id == "bureaucracy-disruptor" then
      .bureaucracyDisruptor (extract_inefficiencies response)
        (extract_automation_opportunities response)
    else
      .generic response
  { agent_id := agent_def.id
    agent_type := agent_def.display_name
    raw_response := response
    timestamp := now
    llm_provider := agent.llm_provider
    fields := fields }

/-! ## Orchestrator state (lines 96-109)

`llm_providers` keeps only the provider names registered by
`_initialize_llm_providers`; the behavior of a provider's `generate` is an
explicit oracle argument `GenFun` (provider name and prompt in, response text
or an error message out). `pending` records executions whose backend call has
been issued but has not yet returned (the suspension point at line 391). -/

def GenFun : Type := String → String → Except String String

structure OrchestratorState where
  agents : List (String × AgentDefinition)
  spawned_agents : List (String × SpawnedAgent)
  workflows : List (String × WorkflowDefinition)
  llm_providers : List String
  supervision_metrics : List (String × SupervisionMetrics)
  pending : List String
  max_concurrent_agents : Nat
  supervision_enabled : Bool
deriving Repr, DecidableEq

/-- `_get_llm_provider`'s provider-prefix parse (line 275), also used for
`agent.llm_provider` at line 372. -/
def model_provider (model_str : String) : String :=
  if containsSubstr model_str "/" then (splitChar '/' model_str).headD "" else "minimax"

/-- `_get_llm_provider` (lines 272-286), returning the name of the provider
whose `generate` will serve the call. -/
def get_llm_provider (providers : List String) (model_str : String) : Option String :=
  let provider := model_provider model_str
  if providers.contains provider then some provider
  else if providers.contains "minimax" then some "minimax"
  else if providers.contains "ollama" then some "ollama"
  else none

/-- The prompt-derived discriminator of the execution id (line 304); Python's
`hash` is platform dependent, so a concrete stand-in is used. No claim depends
on its value. -/
def prompt_hash (prompt : String) : Nat :=
  (prompt.data.foldl (fun acc c => acc + c.toNat) 0) % 10000

/-- The execution id `f"{agent_type}-{int(now.timestamp())}-{hash(prompt) % 10000}"`. -/
def gen_agent_id (agent_type : String) (t0 : Nat) (prompt : String) : String :=
  agent_type ++ "-" ++ toString t0 ++ "-" ++ toString (prompt_hash prompt)

/-- The full prompt built in `_execute_agent` (lines 375-385). -/
def build_full_prompt (instructions_prompt : String) (prompt : String) : String :=
  instructions_prompt ++ "\n\nTask: " ++ prompt ++
    "\n\nPlease provide a structured response following BMAD principles:\n- Break down the task into manageable components\n- Map out dependencies and relationships\n- Automate repetitive aspects where possible\n- Document your approach and findings\n\nResponse:"

/-- The admission errors raised by `spawn_agent` (lines 295-301):
`ValueError` for an unknown agent type, `RuntimeError` for the ceiling. -/
inductive SpawnError
  | notFound (msg : String)
  | capacity (msg : String)
deriving Repr, DecidableEq

def SpawnError.msg : SpawnError → String
  | .notFound m => m
  | .capacity m => m

/-- The count of currently-RUNNING records (line 299). -/
def running_count (st : OrchestratorState) : Nat :=
  (st.spawned_agents.filter (fun p => p.2.status == AgentStatus.running)).length

/-- Outcome of the start phase of a spawn: an admission error (nothing
stored), a synchronous no-provider failure (record stored and RUNNING, the
`RuntimeError` of line 370 about to be handled), or an execution suspended at
the `generate` call of line 391. -/
inductive SpawnStart
  | admitError (e : SpawnError)
  | noProvider (agent_id : String) (model : String) (st : OrchestratorState)
  | awaiting (agent_id : String) (provider_name : String) (full_prompt : String)
      (st : OrchestratorState)

/-- `spawn_agent` lines 295-325 followed by `_execute_agent` lines 360-391 up
to the backend call: admission checks, record creation in STARTING, paired
supervision entry, transition to RUNNING with heartbeat refresh, provider
resolution, `llm_provider` assignment and full-prompt construction. -/
def spawn_start (st : OrchestratorState) (request : SpawnRequest) (t0 : Nat) : SpawnStart :=
  match dictGet st.agents request.agent_type with
  | none => .admitError (.notFound ("Agent type " ++ request.agent_type ++ " not found"))
  | some agent_def =>
      if st.max_concurrent_agents ≤ running_count st then
        .admitError (.capacity ("Max concurrent agents (" ++
          toString st.max_concurrent_agents ++ ") reached"))
      else
        let agent_id := gen_agent_id request.agent_type t0 request.prompt
        let spawned_agent : SpawnedAgent :=
          { id := agent_id, agent_type := request.agent_type, prompt := request.prompt,
            status := .starting, start_time := t0, metadata := request.metadata }
        let st1 := { st with
          spawned_agents := dictInsert st.spawned_agents agent_id spawned_agent }
        let st2 :=
          if st1.supervision_enabled then
            let metrics : SupervisionMetrics :=
              { agent_id := agent_id, status := .starting, last_heartbeat := t0 }
            { st1 with supervision_metrics := dictInsert st1.supervision_metrics agent_id metrics }
          else st1
        let running_agent := { spawned_agent with status := AgentStatus.running }
        let st3 := { st2 with spawned_agents := dictInsert st2.spawned_agents agent_id running_agent }
        let st4 :=
          match dictGet st3.supervision_metrics agent_id with
          | some m =>
              let m' := { m with status := AgentStatus.running, last_heartbeat := t0 }
              { st3 with supervision_metrics := dictInsert st3.supervision_metrics agent_id m' }
          | none => st3
        match get_llm_provider st4.llm_providers agent_def.model with
        | none => .noProvider agent_id agent_def.model st4
        | some provider_name =>
            let with_provider :=
              { running_agent with llm_provider := some (model_provider agent_def.model) }
            let st5 :=
              { st4 with spawned_agents := dictInsert st4.spawned_agents agent_id with_provider }
            let full_prompt := build_full_prompt agent_def.instructions_prompt request.prompt
            let st6 := { st5 with pending := st5.pending ++ [agent_id] }
            .awaiting agent_id provider_name full_prompt st6

/-- The success epilogue of `spawn_agent` (lines 331-339): terminal COMPLETED
transition with `end_time`/`duration_ms`, and the paired supervision update. -/
def spawn_complete_update (st : OrchestratorState) (agent_id : String) (res : AgentResult)
    (t1 : Nat) : OrchestratorState :=
  let st1 :=
    match dictGet st.spawned_agents agent_id with
    | some a =>
        let a' := { a with status := AgentStatus.completed, result := some res,
                           end_time := some t1,
                           duration_ms := some ((t1 - a.start_time) * 1000) }
        { st with spawned_agents := dictInsert st.spawned_agents agent_id a' }
    | none => st
  match dictGet st1.supervision_metrics agent_id with
  | some m =>
      let m' := { m with status := AgentStatus.completed,
                         tasks_completed := m.tasks_completed + 1 }
      { st1 with supervision_metrics := dictInsert st1.supervision_metrics agent_id m' }
  | none => st1

/-- The exception epilogue of `spawn_agent` (lines 343-352): terminal FAILED
transition with `end_time` (the source sets no `duration_ms` here), and the
paired supervision update. -/
def spawn_fail_update (st : OrchestratorState) (agent_id : String) (err : String)
    (t1 : Nat) : OrchestratorState :=
  let st1 :=
    match dictGet st.spawned_agents agent_id with
    | some a =>
        let a' := { a with status := AgentStatus.failed, error := some err,
                           end_time := some t1 }
        { st with spawned_agents := dictInsert st.spawned_agents agent_id a' }
    | none => st
  match dictGet st1.supervision_metrics agent_id with
  | some m =>
      let m' := { m with status := AgentStatus.failed, tasks_failed := m.tasks_failed + 1,
                         health_status := "unhealthy" }
      { st1 with supervision_metrics := dictInsert st1.supervision_metrics agent_id m' }
  | none => st1

/-- Resumption after the backend call returns (`_execute_agent` lines
391-405 and the surrounding `spawn_agent` epilogues): parse the response and
complete, or record the propagated exception as a failure. -/
def spawn_finish (st : OrchestratorState) (agent_id : String)
    (gen_result : Except String String) (t1 : Nat) : OrchestratorState :=
  let st0 := { st with pending := st.pending.erase agent_id }
  match gen_result with
  | .error e => spawn_fail_update st0 agent_id e t1
  | .ok response =>
      match dictGet st0.spawned_agents agent_id with
      | none => st0
      | some a =>
          match dictGet st0.agents a.agent_type with
          | none => st0
          | some agent_def =>
              let res := parse_agent_response agent_def response a t1
              spawn_complete_update st0 agent_id res t1

def default_spawned : SpawnedAgent :=
  { id := "", agent_type := "", prompt := "", status := .idle, start_time := 0, metadata := [] }

/-- The message of the `RuntimeError` raised at line 370 when no provider
resolves, as recorded by `str(e)` on the failed record. -/
def no_provider_error (model : String) : String :=
  "No LLM provider available for model: " ++ model

/-- `spawn_agent` (lines 293-356) for a backend call that returns: the start
phase immediately followed by the finish phase. Admission failures are the
only raised errors; in every other case the terminal record is returned. -/
def spawn_agent (st : OrchestratorState) (request : SpawnRequest) (t0 t1 : Nat)
    (gen : GenFun) : Except SpawnError SpawnedAgent × OrchestratorState :=
  match spawn_start st request t0 with
  | .admitError e => (.error e, st)
  | .noProvider agent_id model st' =>
      let st2 := spawn_fail_update st' agent_id (no_provider_error model) t1
      (.ok ((dictGet st2.spawned_agents agent_id).getD default_spawned), st2)
  | .awaiting agent_id provider_name full_prompt st' =>
      let st2 := spawn_finish st' agent_id (gen provider_name full_prompt) t1
      (.ok ((dictGet st2.spawned_agents agent_id).getD default_spawned), st2)

/-- A spawn whose backend call has not (yet) returned: the record is left
RUNNING and pending. A no-provider failure is synchronous, so it completes. -/
def spawn_hang (st : OrchestratorState) (request : SpawnRequest) (t0 t1 : Nat) :
    OrchestratorState :=
  match spawn_start st request t0 with
  | .admitError _ => st
  | .noProvider agent_id model st' =>
      spawn_fail_update st' agent_id (no_provider_error model) t1
  | .awaiting _ _ _ st' => st'

/-- One request of a `spawn_multiple_agents` fan-out, with its backend oracle
and clock readings. -/
structure SpawnCall where
  request : SpawnRequest
  t0 : Nat
  t1 : Nat
  gen : GenFun

/-- `spawn_multiple_agents` (lines 539-583): every task runs `spawn_agent`;
results that are `SpawnedAgent`s are collected in order, exceptions
(admission errors) are logged and skipped, and nothing is raised. -/
def spawn_multiple_agents (st : OrchestratorState) :
    List SpawnCall → List SpawnedAgent × OrchestratorState
  | [] => ([], st)
  | c :: rest =>
      let (r, st1) := spawn_agent st c.request c.t0 c.t1 c.gen
      let (others, st2) := spawn_multiple_agents st1 rest
      match r with
      | .ok a => (a :: others, st2)
      | .error _ => (others, st2)

/-! ## Workflow engine (lines 602-671) -/

/-- The per-step entry recorded in the workflow `results` map (lines 641-646). -/
structure StepEntry where
  agent_id : String
  status : String
  result : Option AgentResult
  duration_ms : Option Nat
deriving Repr, DecidableEq

/-- The step prompt of lines 622-626: the step's own prompt, and when any
previous step results exist, the rendered context. `render` models Python's
`str()` applied to a stored step result. -/
def build_step_prompt (render : Option AgentResult → String) (prompt : String)
    (step_results : List (String × Option AgentResult)) : String :=
  if step_results.isEmpty then prompt
  else
    prompt ++ "\n\nContext from previous steps:\n" ++
      pyJoin "\n"
        (step_results.map (fun p => "Step " ++ p.1 ++ ": " ++ render p.2))

/-- The backend oracle and clock readings for one workflow step's spawn. -/
structure StepBackend where
  t0 : Nat
  t1 : Nat
  gen : GenFun

/-- The `for step in workflow.steps` loop of lines 615-651. Returns the
pending error (`none` when all steps succeeded), the `results` map, and the
final state. An error exits the loop immediately, so the remaining steps are
never spawned. -/
def run_steps (workflow_id : String) (metadata : List (String × String))
    (render : Option AgentResult → String) (backends : Nat → StepBackend)
    (st : OrchestratorState) (idx : Nat) (steps : List WorkflowStep)
    (step_results : List (String × Option AgentResult))
    (results : List (String × StepEntry)) :
    Option String × List (String × StepEntry) × OrchestratorState :=
  match steps with
  | [] => (none, results, st)
  | step :: rest =>
      match step.dependencies.find? (fun dep_id => (dictGet step_results dep_id).isNone) with
      | some dep_id => (some ("Dependency " ++ dep_id ++ " not completed"), results, st)
      | none =>
          let step_prompt := build_step_prompt render step.prompt step_results
          let step_metadata :=
            dictInsert (dictInsert metadata "workflow_id" workflow_id) "step_id" step.id
          let request : SpawnRequest :=
            { agent_type := step.agent, prompt := step_prompt, metadata := step_metadata }
          let b := backends idx
          let spawned := spawn_agent st request b.t0 b.t1 b.gen
          match spawned.1 with
          | .error e => (some e.msg, results, spawned.2)
          | .ok spawned_agent =>
              let step_results' := dictInsert step_results step.id spawned_agent.result
              let entry : StepEntry :=
                { agent_id := spawned_agent.id, status := spawned_agent.status.value,
                  result := spawned_agent.result, duration_ms := spawned_agent.duration_ms }
              let results' := dictInsert results step.id entry
              if spawned_agent.status == AgentStatus.failed then
                (some ("Workflow step " ++ step.id ++ " failed: " ++
                  pyStrOptStr spawned_agent.error), results', spawned.2)
              else
                run_steps workflow_id metadata render backends spawned.2 (idx + 1) rest
                  step_results' results'

/-- The aggregate value returned by `execute_workflow` (lines 656-671). -/
structure WorkflowResult where
  workflow_id : String
  status : String
  results : List (String × StepEntry)
  error : Option String := none
  duration_ms : Option Nat := none
deriving Repr, DecidableEq

def set_workflow_status (st : OrchestratorState) (workflow_id status : String) :
    OrchestratorState :=
  match dictGet st.workflows workflow_id with
  | some w =>
      let w' := { w with status := status }
      { st with workflows := dictInsert st.workflows workflow_id w' }
  | none => st

/-- `execute_workflow` (lines 602-671). The `Except.error` case is the
`ValueError` raised for an unknown workflow id; every other outcome —
including a failed step or an unmet dependency — is returned as a value.
`_initial_prompt` mirrors the source's (unused) `initial_prompt` parameter. -/
def execute_workflow (st : OrchestratorState) (workflow_id _initial_prompt : String)
    (metadata : List (String × String)) (render : Option AgentResult → String)
    (backends : Nat → StepBackend) : Except String WorkflowResult × OrchestratorState :=
  match dictGet st.workflows workflow_id with
  | none => (.error ("Workflow " ++ workflow_id ++ " not found"), st)
  | some workflow =>
      let st0 := set_workflow_status st workflow_id "running"
      let out := run_steps workflow_id metadata render backends st0 0 workflow.steps [] []
      match out.1 with
      | none =>
          let st2 := set_workflow_status out.2.2 workflow_id "completed"
          let total := ((out.2.1.map (fun p => p.2.duration_ms.getD 0)).sum)
          (.ok { workflow_id := workflow_id, status := "completed", results := out.2.1,
                 duration_ms := some total }, st2)
      | some e =>
          let st2 := set_workflow_status out.2.2 workflow_id "failed"
          (.ok { workflow_id := workflow_id, status := "failed", results := out.2.1,
                 error := some e }, st2)

/-! ## Supervision sweep (lines 707-726) -/

/-- The fixed message written by the supervision sweep when an execution has
missed too many heartbeats (line 725). -/
def health_check_error : String :=
  "Agent health check failed - missed too many heartbeats"

/-- The body of `_check_agent_health`'s loop for one supervision entry. -/
def health_step (now : Nat) (st : OrchestratorState) (agent_id : String) :
    OrchestratorState :=
  match dictGet st.supervision_metrics agent_id with
  | none => st
  | some metrics =>
      if metrics.status == AgentStatus.running then
        let time_since_heartbeat := now - metrics.last_heartbeat
        if metrics.heartbeat_interval * 2 < time_since_heartbeat then
          let m1 := { metrics with missed_heartbeats := metrics.missed_heartbeats + 1,
                                   health_status := "degraded" }
          if 3 < m1.missed_heartbeats then
            let m2 := { m1 with health_status := "unhealthy" }
            let st1 :=
              { st with supervision_metrics := dictInsert st.supervision_metrics agent_id m2 }
            match dictGet st1.spawned_agents agent_id with
            | some agent =>
                let agent' := { agent with status := AgentStatus.failed,
                                           error := some health_check_error }
                { st1 with spawned_agents := dictInsert st1.spawned_agents agent_id agent' }
            | none => st1
          else
            { st with supervision_metrics := dictInsert st.supervision_metrics agent_id m1 }
        else st
      else st

/-- `_check_agent_health` (lines 707-726): one supervision sweep at time
`now` over every supervision entry. -/
def check_agent_health (st : OrchestratorState) (now : Nat) : OrchestratorState :=
  (st.supervision_metrics.map Prod.fst).foldl (health_step now) st

/-! ## Metrics snapshot (lines 748-786) -/

/-- The dictionary returned by `get_metrics`, flattened. The average is exact
rational division as in Python's float division. -/
structure OrchestrationMetrics where
  agents_total : Nat
  agents_active : Nat
  agents_completed : Nat
  agents_failed : Nat
  agents_idle : Nat
  workflows_total : Nat
  workflows_running : Nat
  workflows_completed : Nat
  workflows_failed : Nat
  avg_duration_ms : ℚ
  total_duration_ms : Nat
  agents_monitored : Nat
  supervision_healthy : Nat
  supervision_degraded : Nat
  supervision_unhealthy : Nat
deriving Repr, DecidableEq

/-- `get_metrics` (lines 748-786): a pure read of the stores. -/
def get_metrics (st : OrchestratorState) : OrchestrationMetrics :=
  let active_agents :=
    (st.spawned_agents.filter (fun p => p.2.status == AgentStatus.running)).length
  let completed_agents :=
    (st.spawned_agents.filter (fun p => p.2.status == AgentStatus.completed)).length
  let failed_agents :=
    (st.spawned_agents.filter (fun p => p.2.status == AgentStatus.failed)).length
  let total_duration : Nat := (st.spawned_agents.filterMap (fun p => p.2.duration_ms)).sum
  let avg_duration : ℚ :=
    if st.spawned_agents.isEmpty then 0
    else (total_duration : ℚ) / (st.spawned_agents.length : ℚ)
  { agents_total := st.spawned_agents.length
    agents_active := active_agents
    agents_completed := completed_agents
    agents_failed := failed_agents
    agents_idle := st.spawned_agents.length - active_agents - completed_agents - failed_agents
    workflows_total := st.workflows.length
    workflows_running := (st.workflows.filter (fun p => p.2.status == "running")).length
    workflows_completed := (st.workflows.filter (fun p => p.2.status == "completed")).length
    workflows_failed := (st.workflows.filter (fun p => p.2.status == "failed")).length
    avg_duration_ms := avg_duration
    total_duration_ms := total_duration
    agents_monitored := st.supervision_metrics.length
    supervision_healthy :=
      (st.supervision_metrics.filter (fun p => p.2.health_status == "healthy")).length
    supervision_degraded :=
      (st.supervision_metrics.filter (fun p => p.2.health_status == "degraded")).length
    supervision_unhealthy :=
      (st.supervision_metrics.filter (fun p => p.2.health_status == "unhealthy")).length }

/-! ## Shutdown (lines 801-814) -/

/-- `shutdown`: every RUNNING record is marked STOPPED (nothing else is
touched; in particular no `end_time` is written). -/
def shutdown (st : OrchestratorState) : OrchestratorState :=
  { st with spawned_agents := st.spawned_agents.map (fun p =>
      (p.1, if p.2.status == AgentStatus.running then
        { p.2 with status := AgentStatus.stopped }
      else p.2)) }

/-! ## Initialization and reachability -/

/-- `register_agent` (lines 288-291). -/
def register_agent (st : OrchestratorState) (agent : AgentDefinition) : OrchestratorState :=
  { st with agents := dictInsert st.agents agent.id agent }

/-- `_initialize_llm_providers` (lines 136-165): minimax and openai are
registered when their API keys are configured; ollama always is. -/
def init_llm_providers (has_minimax has_openai : Bool) : List String :=
  (if has_minimax then ["minimax"] else []) ++
    (if has_openai then ["openai"] else []) ++ ["ollama"]

/-- The state after `initialize()`: agent definitions registered from the
configuration (or the fallback set), providers per settings, workflows from
the configuration, and empty execution/supervision stores.
`max_concurrent_agents = 10` and `supervision_enabled = True` per the
constructor (lines 105-106). -/
def init_state (defs : List AgentDefinition) (has_minimax has_openai : Bool)
    (wfs : List WorkflowDefinition) : OrchestratorState :=
  let base : OrchestratorState :=
    { agents := [], spawned_agents := []
      workflows := wfs.foldl (fun acc w => dictInsert acc w.id w) []
      llm_providers := init_llm_providers has_minimax has_openai
      supervision_metrics := [], pending := []
      max_concurrent_agents := 10, supervision_enabled := true }
  defs.foldl register_agent base

/-- The states reachable by any interleaving of the orchestrator's
operations. A backend call that suspends is modelled by `hang` (the spawn's
start phase) and `late_finish` (its continuation, only available while the
call is pending); `spawn` is the non-interleaved composition of both. -/
inductive Reach : OrchestratorState → Prop
  | init (defs : List AgentDefinition) (has_minimax has_openai : Bool)
      (wfs : List WorkflowDefinition) :
      Reach (init_state defs has_minimax has_openai wfs)
  | register (st : OrchestratorState) (agent : AgentDefinition) :
      Reach st → Reach (register_agent st agent)
  | spawn (st : OrchestratorState) (request : SpawnRequest) (t0 t1 : Nat) (gen : GenFun) :
      Reach st → Reach (spawn_agent st request t0 t1 gen).2
  | spawn_many (st : OrchestratorState) (calls : List SpawnCall) :
      Reach st → Reach (spawn_multiple_agents st calls).2
  | hang (st : OrchestratorState) (request : SpawnRequest) (t0 t1 : Nat) :
      Reach st → Reach (spawn_hang st request t0 t1)
  | late_finish (st : OrchestratorState) (agent_id : String)
      (gen_result : Except String String) (t1 : Nat) :
      Reach st → agent_id ∈ st.pending → Reach (spawn_finish st agent_id gen_result t1)
  | workflow (st : OrchestratorState) (workflow_id initial_prompt : String)
      (metadata : List (String × String)) (render : Option AgentResult → String)
      (backends : Nat → StepBackend) :
      Reach st →
        Reach (execute_workflow st workflow_id initial_prompt metadata render backends).2
  | sweep (st : OrchestratorState) (now : Nat) :
      Reach st → Reach (check_agent_health st now)
  | shutdown_op (st : OrchestratorState) :
      Reach st → Reach (shutdown st)

/-! ## Helper lemmas about the spawn path -/

/-- The failure epilogue's record shape (lines 344-346). -/
def failed_record (base : SpawnedAgent) (err : String) (t1 : Nat) : SpawnedAgent :=
  { base with status := AgentStatus.failed, error := some err, end_time := some t1 }

/-- The success epilogue's record shape (lines 331-334). -/
def completed_record (base : SpawnedAgent) (res : AgentResult) (t1 : Nat) : SpawnedAgent :=
  { base with status := AgentStatus.completed, result := some res, end_time := some t1,
              duration_ms := some ((t1 - base.start_time) * 1000) }

theorem spawn_fail_update_lookup (st : OrchestratorState) (agent_id err : String) (t1 : Nat)
    (a : SpawnedAgent) (h : dictGet st.spawned_agents agent_id = some a) :
    dictGet (spawn_fail_update st agent_id err t1).spawned_agents agent_id =
      some (failed_record a err t1) := by
  unfold spawn_fail_update
  rw [h]
  dsimp only
  split
  · simp [dictGet_insert_self, failed_record]
  · simp [dictGet_insert_self, failed_record]

theorem spawn_complete_update_lookup (st : OrchestratorState) (agent_id : String)
    (res : AgentResult) (t1 : Nat) (a : SpawnedAgent)
    (h : dictGet st.spawned_agents agent_id = some a) :
    dictGet (spawn_complete_update st agent_id res t1).spawned_agents agent_id =
      some (completed_record a res t1) := by
  unfold spawn_complete_update
  rw [h]
  dsimp only
  split
  · simp [dictGet_insert_self, completed_record]
  · simp [dictGet_insert_self, completed_record]

/-- The record as first stored by `spawn_start` (STARTING). -/
def starting_record (req : SpawnRequest) (t0 : Nat) : SpawnedAgent :=
  { id := gen_agent_id req.agent_type t0 req.prompt, agent_type := req.agent_type,
    prompt := req.prompt, status := .starting, start_time := t0, metadata := req.metadata }

/-- The record after the RUNNING transition of `_execute_agent`. -/
def running_record (req : SpawnRequest) (t0 : Nat) : SpawnedAgent :=
  { starting_record req t0 with status := .running }

/-- The record after the `llm_provider` assignment of line 372. -/
def provider_record (req : SpawnRequest) (t0 : Nat) (model : String) : SpawnedAgent :=
  { running_record req t0 with llm_provider := some (model_provider model) }

theorem spawn_start_noProvider (st : OrchestratorState) (req : SpawnRequest) (t0 : Nat)
    (d : AgentDefinition) (hdef : dictGet st.agents req.agent_type = some d)
    (hcap : running_count st < st.max_concurrent_agents)
    (hprov : get_llm_provider st.llm_providers d.model = none) :
    ∃ stm, spawn_start st req t0 =
        SpawnStart.noProvider (gen_agent_id req.agent_type t0 req.prompt) d.model stm ∧
      dictGet stm.spawned_agents (gen_agent_id req.agent_type t0 req.prompt) =
        some (running_record req t0) ∧
      stm.agents = st.agents ∧
      stm.spawned_agents =
        dictInsert (dictInsert st.spawned_agents (gen_agent_id req.agent_type t0 req.prompt)
            (starting_record req t0))
          (gen_agent_id req.agent_type t0 req.prompt) (running_record req t0) := by
  unfold spawn_start
  rw [hdef]
  dsimp only
  rw [if_neg (not_le.mpr hcap)]
  by_cases hsup : st.supervision_enabled
  · simp only [hsup, if_true, dictGet_insert_self, hprov]
    exact ⟨_, rfl, by simp [dictGet_insert_self, running_record, starting_record], rfl, rfl⟩
  · simp only [hsup, if_false, Bool.false_eq_true]
    cases hm : dictGet st.supervision_metrics (gen_agent_id req.agent_type t0 req.prompt) with
    | none =>
        simp only [hprov]
        exact ⟨_, rfl, by simp [dictGet_insert_self, running_record, starting_record], rfl, rfl⟩
    | some m =>
        simp only [hprov]
        exact ⟨_, rfl, by simp [dictGet_insert_self, running_record, starting_record], rfl, rfl⟩

theorem spawn_start_awaiting (st : OrchestratorState) (req : SpawnRequest) (t0 : Nat)
    (d : AgentDefinition) (p : String) (hdef : dictGet st.agents req.agent_type = some d)
    (hcap : running_count st < st.max_concurrent_agents)
    (hprov : get_llm_provider st.llm_providers d.model = some p) :
    ∃ stm, spawn_start st req t0 =
        SpawnStart.awaiting (gen_agent_id req.agent_type t0 req.prompt) p
          (build_full_prompt d.instructions_prompt req.prompt) stm ∧
      dictGet stm.spawned_agents (gen_agent_id req.agent_type t0 req.prompt) =
        some (provider_record req t0 d.model) ∧
      stm.agents = st.agents ∧
      stm.spawned_agents =
        dictInsert (dictInsert (dictInsert st.spawned_agents
              (gen_agent_id req.agent_type t0 req.prompt) (starting_record req t0))
            (gen_agent_id req.agent_type t0 req.prompt) (running_record req t0))
          (gen_agent_id req.agent_type t0 req.prompt) (provider_record req t0 d.model) := by
  unfold spawn_start
  rw [hdef]
  dsimp only
  rw [if_neg (not_le.mpr hcap)]
  by_cases hsup : st.supervision_enabled
  · simp only [hsup, if_true, dictGet_insert_self, hprov]
    exact ⟨_, rfl, by
      simp [dictGet_insert_self, provider_record, running_record, starting_record], rfl, rfl⟩
  · simp only [hsup, if_false, Bool.false_eq_true]
    cases hm : dictGet st.supervision_metrics (gen_agent_id req.agent_type t0 req.prompt) with
    | none =>
        simp only [hprov]
        exact ⟨_, rfl, by
          simp [dictGet_insert_self, provider_record, running_record, starting_record], rfl, rfl⟩
    | some m =>
        simp only [hprov]
        exact ⟨_, rfl, by
          simp [dictGet_insert_self, provider_record, running_record, starting_record], rfl, rfl⟩

theorem spawn_finish_error_lookup (st : OrchestratorState) (agent_id e : String) (t1 : Nat)
    (a : SpawnedAgent) (h : dictGet st.spawned_agents agent_id = some a) :
    dictGet (spawn_finish st agent_id (Except.error e) t1).spawned_agents agent_id =
      some (failed_record a e t1) := by
  unfold spawn_finish
  dsimp only
  exact spawn_fail_update_lookup _ _ _ _ _ h

theorem spawn_finish_ok_lookup (st : OrchestratorState) (agent_id resp : String) (t1 : Nat)
    (a : SpawnedAgent) (d : AgentDefinition)
    (ha : dictGet st.spawned_agents agent_id = some a)
    (hd : dictGet st.agents a.agent_type = some d) :
    dictGet (spawn_finish st agent_id (Except.ok resp) t1).spawned_agents agent_id =
      some (completed_record a (parse_agent_response d resp a t1) t1) := by
  unfold spawn_finish
  dsimp only
  rw [ha]
  dsimp only
  rw [hd]
  exact spawn_complete_update_lookup _ _ _ _ _ ha

/-- Full functional characterization of `spawn_agent`: exactly the two
admission checks raise (leaving the state untouched); every admitted request
yields a stored terminal record whose fields are determined by provider
resolution and the backend outcome. -/
theorem spawn_agent_spec (st : OrchestratorState) (req : SpawnRequest) (t0 t1 : Nat)
    (gen : GenFun) :
    (dictGet st.agents req.agent_type = none ∧
      (spawn_agent st req t0 t1 gen).1 =
        Except.error (.notFound ("Agent type " ++ req.agent_type ++ " not found")) ∧
      (spawn_agent st req t0 t1 gen).2 = st) ∨
    ((∃ d, dictGet st.agents req.agent_type = some d) ∧
      st.max_concurrent_agents ≤ running_count st ∧
      (spawn_agent st req t0 t1 gen).1 =
        Except.error (.capacity ("Max concurrent agents (" ++
          toString st.max_concurrent_agents ++ ") reached")) ∧
      (spawn_agent st req t0 t1 gen).2 = st) ∨
    (∃ d, dictGet st.agents req.agent_type = some d ∧
      running_count st < st.max_concurrent_agents ∧
      ∃ a, (spawn_agent st req t0 t1 gen).1 = Except.ok a ∧
        dictGet (spawn_agent st req t0 t1 gen).2.spawned_agents a.id = some a ∧
        a.id = gen_agent_id req.agent_type t0 req.prompt ∧
        a.agent_type = req.agent_type ∧ a.prompt = req.prompt ∧
        a.start_time = t0 ∧ a.end_time = some t1 ∧ a.metadata = req.metadata ∧
        (match get_llm_provider st.llm_providers d.model with
         | none => a.status = AgentStatus.failed ∧
             a.error = some (no_provider_error d.model) ∧
             a.llm_provider = none ∧ a.result = none
         | some p => a.llm_provider = some (model_provider d.model) ∧
             (match gen p (build_full_prompt d.instructions_prompt req.prompt) with
              | .ok response => a.status = AgentStatus.completed ∧ a.error = none ∧
                  a.duration_ms = some ((t1 - t0) * 1000) ∧
                  ∃ r, a.result = some r ∧ r.raw_response = response ∧
                    r.agent_id = d.id ∧ r.llm_provider = some (model_provider d.model)
              | .error e => a.status = AgentStatus.failed ∧ a.error = some e ∧
                  a.result = none))) := by
  cases hdef : dictGet st.agents req.agent_type with
  | none =>
      have hsa : spawn_agent st req t0 t1 gen =
          (Except.error (.notFound ("Agent type " ++ req.agent_type ++ " not found")), st) := by
        unfold spawn_agent spawn_start
        rw [hdef]
      exact Or.inl ⟨rfl, by rw [hsa], by rw [hsa]⟩
  | some d =>
      by_cases hcap : st.max_concurrent_agents ≤ running_count st
      · have hsa : spawn_agent st req t0 t1 gen =
            (Except.error (.capacity ("Max concurrent agents (" ++
              toString st.max_concurrent_agents ++ ") reached")), st) := by
          unfold spawn_agent spawn_start
          rw [hdef]
          dsimp only
          rw [if_pos hcap]
        exact Or.inr (Or.inl ⟨⟨d, rfl⟩, hcap, by rw [hsa], by rw [hsa]⟩)
      · have hlt : running_count st < st.max_concurrent_agents := not_le.mp hcap
        refine Or.inr (Or.inr ⟨d, rfl, hlt, ?_⟩)
        cases hprov : get_llm_provider st.llm_providers d.model with
        | none =>
            obtain ⟨stm, hstart, hlook, hagents, hstore⟩ :=
              spawn_start_noProvider st req t0 d hdef hlt hprov
            have hfail := spawn_fail_update_lookup stm
              (gen_agent_id req.agent_type t0 req.prompt) (no_provider_error d.model) t1
              (running_record req t0) hlook
            have hsa : spawn_agent st req t0 t1 gen =
                (Except.ok (failed_record (running_record req t0)
                   (no_provider_error d.model) t1),
                 spawn_fail_update stm (gen_agent_id req.agent_type t0 req.prompt)
                   (no_provider_error d.model) t1) := by
              unfold spawn_agent
              rw [hstart]
              dsimp only
              rw [hfail]
              rfl
            refine ⟨_, by rw [hsa], ?_, rfl, rfl, rfl, rfl, rfl, rfl, ?_⟩
            · rw [hsa]
              exact hfail
            · exact ⟨rfl, rfl, rfl, rfl⟩
        | some p =>
            dsimp only
            obtain ⟨stm, hstart, hlook, hagents, hstore⟩ :=
              spawn_start_awaiting st req t0 d p hdef hlt hprov
            have hd' : dictGet stm.agents (provider_record req t0 d.model).agent_type =
                some d := by
              rw [hagents]; exact hdef
            cases hgen : gen p (build_full_prompt d.instructions_prompt req.prompt) with
            | ok response =>
                have hfin := spawn_finish_ok_lookup stm
                  (gen_agent_id req.agent_type t0 req.prompt) response t1
                  (provider_record req t0 d.model) d hlook hd'
                have hsa : spawn_agent st req t0 t1 gen =
                    (Except.ok (completed_record (provider_record req t0 d.model)
                       (parse_agent_response d response (provider_record req t0 d.model) t1)
                       t1),
                     spawn_finish stm (gen_agent_id req.agent_type t0 req.prompt)
                       (Except.ok response) t1) := by
                  unfold spawn_agent
                  rw [hstart]
                  dsimp only
                  rw [hgen, hfin]
                  rfl
                refine ⟨_, by rw [hsa], ?_, rfl, rfl, rfl, rfl, rfl, rfl, ?_⟩
                · rw [hsa]
                  exact hfin
                · exact ⟨rfl, rfl, rfl, rfl,
                    ⟨parse_agent_response d response (provider_record req t0 d.model) t1,
                      rfl, rfl, rfl, rfl⟩⟩
            | error e =>
                have hfin := spawn_finish_error_lookup stm
                  (gen_agent_id req.agent_type t0 req.prompt) e t1
                  (provider_record req t0 d.model) hlook
                have hsa : spawn_agent st req t0 t1 gen =
                    (Except.ok (failed_record (provider_record req t0 d.model) e t1),
                     spawn_finish stm (gen_agent_id req.agent_type t0 req.prompt)
                       (Except.error e) t1) := by
                  unfold spawn_agent
                  rw [hstart]
                  dsimp only
                  rw [hgen, hfin]
                  rfl
                refine ⟨_, by rw [hsa], ?_, rfl, rfl, rfl, rfl, rfl, rfl, ?_⟩
                · rw [hsa]
                  exact hfin
                · exact ⟨rfl, rfl, rfl, rfl⟩

/-! ## C1: admission errors and the no-throw guarantee of `spawn_agent` -/

/-- C1: `spawn_agent` raises if and only if the request's agent type is not
registered (a "not found" error) or the count of currently-RUNNING records is
at or above the admission ceiling (a "capacity" error); in exactly these
cases the orchestrator state — hence the record store and the supervision
store — is unchanged, and in every other case, including any backend or
execution failure, it returns a record with status COMPLETED or FAILED
without raising. -/
theorem spawn_admission_and_no_throw (st : OrchestratorState) (req : SpawnRequest)
    (t0 t1 : Nat) (gen : GenFun) :
    ((∃ e, (spawn_agent st req t0 t1 gen).1 = Except.error e) ↔
      (dictGet st.agents req.agent_type = none ∨
        st.max_concurrent_agents ≤ running_count st)) ∧
    ((∃ e, (spawn_agent st req t0 t1 gen).1 = Except.error e) →
      (spawn_agent st req t0 t1 gen).2 = st) ∧
    (dictGet st.agents req.agent_type = none →
      (spawn_agent st req t0 t1 gen).1 =
        Except.error (.notFound ("Agent type " ++ req.agent_type ++ " not found"))) ∧
    (∀ d, dictGet st.agents req.agent_type = some d →
      st.max_concurrent_agents ≤ running_count st →
      (spawn_agent st req t0 t1 gen).1 =
        Except.error (.capacity ("Max concurrent agents (" ++
          toString st.max_concurrent_agents ++ ") reached"))) ∧
    (∀ a, (spawn_agent st req t0 t1 gen).1 = Except.ok a →
      a.status = AgentStatus.completed ∨ a.status = AgentStatus.failed) := by
  rcases spawn_agent_spec st req t0 t1 gen with
    ⟨hnone, herr, hstate⟩ |
    ⟨⟨d0, hd0⟩, hcap0, herr, hstate⟩ |
    ⟨d, hd, hlt, a0, hok, _, _, _, _, _, _, _, hmatch⟩
  · refine ⟨⟨fun _ => Or.inl hnone, fun _ => ⟨_, herr⟩⟩, fun _ => hstate,
      fun _ => herr, ?_, ?_⟩
    · intro d hd
      rw [hnone] at hd
      exact absurd hd (by simp)
    · intro a ha
      rw [herr] at ha
      exact absurd ha (by simp)
  · refine ⟨⟨fun _ => Or.inr hcap0, fun _ => ⟨_, herr⟩⟩, fun _ => hstate, ?_, ?_, ?_⟩
    · intro h
      rw [hd0] at h
      exact absurd h (by simp)
    · intro d hd hc
      exact herr
    · intro a ha
      rw [herr] at ha
      exact absurd ha (by simp)
  · have hnoerr : ¬ ∃ e, (spawn_agent st req t0 t1 gen).1 = Except.error e := by
      rintro ⟨e, he⟩
      rw [hok] at he
      exact absurd he (by simp)
    refine ⟨⟨fun h => absurd h hnoerr, ?_⟩, fun h => absurd h hnoerr, ?_, ?_, ?_⟩
    · rintro (h | h)
      · rw [hd] at h
        exact absurd h (by simp)
      · exact absurd h (not_le.mpr hlt)
    · intro h
      rw [hd] at h
      exact absurd h (by simp)
    · intro d' hd' hc
      exact absurd hc (not_le.mpr hlt)
    · intro a ha
      rw [hok] at ha
      have haa : a = a0 := by
        injection ha with h
        exact h.symm
      subst haa
      cases hp : get_llm_provider st.llm_providers d.model with
      | none =>
          rw [hp] at hmatch
          exact Or.inr hmatch.1
      | some p =>
          rw [hp] at hmatch
          dsimp only at hmatch
          cases hg : gen p (build_full_prompt d.instructions_prompt req.prompt) with
          | ok response =>
              rw [hg] at hmatch
              exact Or.inl hmatch.2.1
          | error e =>
              rw [hg] at hmatch
              exact Or.inr hmatch.2.1

/-! ## Concrete fixtures used by witnesses and counterexamples -/

/-- A stub agent whose backend echoes its prompt (spec §8's `"echo"` agent). -/
def echo_def : AgentDefinition :=
  { id := "echo", display_name := "Echo", model := "minimax/MiniMax-M2",
    tool_names := [], spawnable_agents := [], instructions_prompt := "" }

/-- The echoing backend: `generate` returns its input prompt verbatim. -/
def echo_gen : GenFun := fun _ prompt => Except.ok prompt

def echo_state : OrchestratorState := init_state [echo_def] true false []

theorem spawn_admission_and_no_throw_witness :
    (∃ e, (spawn_agent echo_state ⟨"nope", "x", []⟩ 0 1 echo_gen).1 = Except.error e) ∧
    (spawn_agent echo_state ⟨"nope", "x", []⟩ 0 1 echo_gen).2 = echo_state := by
  have h := spawn_admission_and_no_throw echo_state ⟨"nope", "x", []⟩ 0 1 echo_gen
  have hn : dictGet echo_state.agents "nope" = none := by decide
  exact ⟨h.1.mpr (Or.inl hn), h.2.1 (h.1.mpr (Or.inl hn))⟩

/-! ## C2: record timestamp invariants -/

/-- The invariant exactly as the spec states it: RUNNING records have no
`end_time`, terminal (COMPLETED/FAILED/STOPPED) records have one.
(`start_time` is a total field of the embedding, as the source sets it at
record construction, so the "startTime is set" half is structural.) -/
def claimed_record_invariant (st : OrchestratorState) : Prop :=
  ∀ p ∈ st.spawned_agents,
    ((p.2).status = AgentStatus.running → (p.2).end_time = none) ∧
    ((p.2).status = AgentStatus.completed ∨ (p.2).status = AgentStatus.failed ∨
        (p.2).status = AgentStatus.stopped →
      (p.2).end_time ≠ none)

/-- The amended per-record invariant that the code actually maintains:
RUNNING and STOPPED records have no `end_time`, COMPLETED records have one;
FAILED records may lack it (the supervision sweep force-fails without
setting `end_time`). -/
def record_ok (a : SpawnedAgent) : Prop :=
  (a.status = AgentStatus.running → a.end_time = none) ∧
  (a.status = AgentStatus.completed → a.end_time ≠ none) ∧
  (a.status = AgentStatus.stopped → a.end_time = none)

def records_ok (st : OrchestratorState) : Prop :=
  ∀ p ∈ st.spawned_agents, record_ok p.2

theorem spawn_start_notFound (st : OrchestratorState) (req : SpawnRequest) (t0 : Nat)
    (hdef : dictGet st.agents req.agent_type = none) :
    spawn_start st req t0 =
      .admitError (.notFound ("Agent type " ++ req.agent_type ++ " not found")) := by
  unfold spawn_start
  rw [hdef]

theorem spawn_start_capacity (st : OrchestratorState) (req : SpawnRequest) (t0 : Nat)
    (d : AgentDefinition) (hdef : dictGet st.agents req.agent_type = some d)
    (hcap : st.max_concurrent_agents ≤ running_count st) :
    spawn_start st req t0 =
      .admitError (.capacity ("Max concurrent agents (" ++
        toString st.max_concurrent_agents ++ ") reached")) := by
  unfold spawn_start
  rw [hdef]
  dsimp only
  rw [if_pos hcap]

theorem spawn_fail_update_records_ok (st : OrchestratorState) (agent_id err : String)
    (t1 : Nat) (h : records_ok st) : records_ok (spawn_fail_update st agent_id err t1) := by
  unfold spawn_fail_update
  cases ha : dictGet st.spawned_agents agent_id with
  | none =>
      dsimp only
      split
      · exact fun p hp => h p hp
      · exact fun p hp => h p hp
  | some a =>
      dsimp only
      split
      · intro p hp
        rcases mem_dictInsert _ _ _ p hp with h1 | h1
        · exact h p h1
        · rw [h1]; simp [record_ok]
      · intro p hp
        rcases mem_dictInsert _ _ _ p hp with h1 | h1
        · exact h p h1
        · rw [h1]; simp [record_ok]

theorem spawn_complete_update_records_ok (st : OrchestratorState) (agent_id : String)
    (res : AgentResult) (t1 : Nat) (h : records_ok st) :
    records_ok (spawn_complete_update st agent_id res t1) := by
  unfold spawn_complete_update
  cases ha : dictGet st.spawned_agents agent_id with
  | none =>
      dsimp only
      split
      · exact fun p hp => h p hp
      · exact fun p hp => h p hp
  | some a =>
      dsimp only
      split
      · intro p hp
        rcases mem_dictInsert _ _ _ p hp with h1 | h1
        · exact h p h1
        · rw [h1]; simp [record_ok]
      · intro p hp
        rcases mem_dictInsert _ _ _ p hp with h1 | h1
        · exact h p h1
        · rw [h1]; simp [record_ok]

theorem spawn_finish_records_ok (st : OrchestratorState) (agent_id : String)
    (gen_result : Except String String) (t1 : Nat) (h : records_ok st) :
    records_ok (spawn_finish st agent_id gen_result t1) := by
  unfold spawn_finish
  cases gen_result with
  | error e =>
      dsimp only
      exact spawn_fail_update_records_ok _ _ _ _ (fun p hp => h p hp)
  | ok response =>
      dsimp only
      cases ha : dictGet st.spawned_agents agent_id with
      | none => exact fun p hp => h p hp
      | some a =>
          dsimp only
          cases hb : dictGet st.agents a.agent_type with
          | none => exact fun p hp => h p hp
          | some agent_def =>
              dsimp only
              exact spawn_complete_update_records_ok _ _ _ _ (fun p hp => h p hp)

theorem spawn_start_records_ok (st : OrchestratorState) (req : SpawnRequest) (t0 : Nat)
    (h : records_ok st) :
    (∀ agent_id model stm, spawn_start st req t0 = .noProvider agent_id model stm →
      records_ok stm) ∧
    (∀ agent_id p fp stm, spawn_start st req t0 = .awaiting agent_id p fp stm →
      records_ok stm) := by
  cases hdef : dictGet st.agents req.agent_type with
  | none =>
      have hs := spawn_start_notFound st req t0 hdef
      constructor
      · intro agent_id model stm heq
        rw [hs] at heq
        exact absurd heq (by simp)
      · intro agent_id p fp stm heq
        rw [hs] at heq
        exact absurd heq (by simp)
  | some d =>
      by_cases hcap : st.max_concurrent_agents ≤ running_count st
      · have hs := spawn_start_capacity st req t0 d hdef hcap
        constructor
        · intro agent_id model stm heq
          rw [hs] at heq
          exact absurd heq (by simp)
        · intro agent_id p fp stm heq
          rw [hs] at heq
          exact absurd heq (by simp)
      · have hlt := not_le.mp hcap
        cases hprov : get_llm_provider st.llm_providers d.model with
        | none =>
            obtain ⟨stm0, hstart, hlook, hagents, hstore⟩ :=
              spawn_start_noProvider st req t0 d hdef hlt hprov
            constructor
            · intro agent_id model stm heq
              rw [hstart] at heq
              injection heq with h1 h2 h3
              subst h3
              intro p hp
              rw [hstore] at hp
              rcases mem_dictInsert _ _ _ p hp with hp1 | hp1
              · rcases mem_dictInsert _ _ _ p hp1 with hp2 | hp2
                · exact h p hp2
                · rw [hp2]; simp [record_ok, starting_record]
              · rw [hp1]; simp [record_ok, running_record, starting_record]
            · intro agent_id p fp stm heq
              rw [hstart] at heq
              exact absurd heq (by simp)
        | some pr =>
            obtain ⟨stm0, hstart, hlook, hagents, hstore⟩ :=
              spawn_start_awaiting st req t0 d pr hdef hlt hprov
            constructor
            · intro agent_id model stm heq
              rw [hstart] at heq
              exact absurd heq (by simp)
            · intro agent_id p fp stm heq
              rw [hstart] at heq
              injection heq with h1 h2 h3 h4
              subst h4
              intro q hq
              rw [hstore] at hq
              rcases mem_dictInsert _ _ _ q hq with hq1 | hq1
              · rcases mem_dictInsert _ _ _ q hq1 with hq2 | hq2
                · rcases mem_dictInsert _ _ _ q hq2 with hq3 | hq3
                  · exact h q hq3
                  · rw [hq3]; simp [record_ok, starting_record]
                · rw [hq2]; simp [record_ok, running_record, starting_record]
              · rw [hq1]
                simp [record_ok, provider_record, running_record, starting_record]

theorem spawn_agent_records_ok (st : OrchestratorState) (req : SpawnRequest) (t0 t1 : Nat)
    (gen : GenFun) (h : records_ok st) :
    records_ok (spawn_agent st req t0 t1 gen).2 := by
  unfold spawn_agent
  cases hs : spawn_start st req t0 with
  | admitError e => exact h
  | noProvider agent_id model stm =>
      dsimp only
      exact spawn_fail_update_records_ok _ _ _ _
        ((spawn_start_records_ok st req t0 h).1 agent_id model stm hs)
  | awaiting agent_id p fp stm =>
      dsimp only
      exact spawn_finish_records_ok _ _ _ _
        ((spawn_start_records_ok st req t0 h).2 agent_id p fp stm hs)

theorem spawn_hang_records_ok (st : OrchestratorState) (req : SpawnRequest) (t0 t1 : Nat)
    (h : records_ok st) : records_ok (spawn_hang st req t0 t1) := by
  unfold spawn_hang
  cases hs : spawn_start st req t0 with
  | admitError e => exact h
  | noProvider agent_id model stm =>
      dsimp only
      exact spawn_fail_update_records_ok _ _ _ _
        ((spawn_start_records_ok st req t0 h).1 agent_id model stm hs)
  | awaiting agent_id p fp stm =>
      dsimp only
      exact (spawn_start_records_ok st req t0 h).2 agent_id p fp stm hs

theorem spawn_multiple_records_ok :
    ∀ (calls : List SpawnCall) (st : OrchestratorState), records_ok st →
      records_ok (spawn_multiple_agents st calls).2 := by
  intro calls
  induction calls with
  | nil => exact fun st h => h
  | cons c rest ih =>
      intro st h
      unfold spawn_multiple_agents
      dsimp only
      split
      · exact ih _ (spawn_agent_records_ok _ _ _ _ _ h)
      · exact ih _ (spawn_agent_records_ok _ _ _ _ _ h)

theorem set_workflow_status_records_ok (st : OrchestratorState) (wid s : String)
    (h : records_ok st) : records_ok (set_workflow_status st wid s) := by
  unfold set_workflow_status
  cases hw : dictGet st.workflows wid with
  | none => exact h
  | some w => exact fun p hp => h p hp

theorem run_steps_records_ok (wid : String) (meta : List (String × String))
    (render : Option AgentResult → String) (backends : Nat → StepBackend) :
    ∀ (steps : List WorkflowStep) (st : OrchestratorState) (idx : Nat)
      (sr : List (String × Option AgentResult)) (res : List (String × StepEntry)),
      records_ok st →
      records_ok (run_steps wid meta render backends st idx steps sr res).2.2 := by
  intro steps
  induction steps with
  | nil => exact fun st idx sr res h => h
  | cons s rest ih =>
      intro st idx sr res h
      unfold run_steps
      cases hdep : s.dependencies.find? (fun dep_id => (dictGet sr dep_id).isNone) with
      | some dep => exact h
      | none =>
          dsimp only
          split
          · exact spawn_agent_records_ok _ _ _ _ _ h
          · split
            · exact spawn_agent_records_ok _ _ _ _ _ h
            · exact ih _ _ _ _ (spawn_agent_records_ok _ _ _ _ _ h)

theorem execute_workflow_records_ok (st : OrchestratorState)
    (wid ip : String) (meta : List (String × String)) (render : Option AgentResult → String)
    (backends : Nat → StepBackend) (h : records_ok st) :
    records_ok (execute_workflow st wid ip meta render backends).2 := by
  unfold execute_workflow
  cases hw : dictGet st.workflows wid with
  | none => exact h
  | some wf =>
      dsimp only
      split
      · exact set_workflow_status_records_ok _ _ _
          (run_steps_records_ok _ _ _ _ _ _ _ _ _
            (set_workflow_status_records_ok _ _ _ h))
      · exact set_workflow_status_records_ok _ _ _
          (run_steps_records_ok _ _ _ _ _ _ _ _ _
            (set_workflow_status_records_ok _ _ _ h))

theorem health_step_records_ok (now : Nat) (st : OrchestratorState) (k : String)
    (h : records_ok st) : records_ok (health_step now st k) := by
  unfold health_step
  cases hm : dictGet st.supervision_metrics k with
  | none => exact h
  | some m =>
      dsimp only
      split
      · split
        · split
          · split
            · intro p hp
              rcases mem_dictInsert _ _ _ p hp with h1 | h1
              · exact h p h1
              · rw [h1]; simp [record_ok]
            · exact fun p hp => h p hp
          · exact fun p hp => h p hp
        · exact h
      · exact h

theorem foldl_health_records_ok (now : Nat) (ks : List String) :
    ∀ st : OrchestratorState, records_ok st →
      records_ok (ks.foldl (health_step now) st) := by
  induction ks with
  | nil => exact fun st h => h
  | cons k ks ih => exact fun st h => ih _ (health_step_records_ok now st k h)

theorem check_agent_health_records_ok (st : OrchestratorState) (now : Nat)
    (h : records_ok st) : records_ok (check_agent_health st now) :=
  foldl_health_records_ok now _ st h

theorem shutdown_records_ok (st : OrchestratorState) (h : records_ok st) :
    records_ok (shutdown st) := by
  intro p hp
  unfold shutdown at hp
  dsimp only at hp
  rcases List.mem_map.mp hp with ⟨q, hq, rfl⟩
  by_cases hr : q.2.status = AgentStatus.running
  · dsimp only
    simp only [hr]
    rw [if_pos (by simp)]
    have hend : q.2.end_time = none := (h q hq).1 hr
    simp [record_ok, hend]
  · dsimp only
    have hb : (q.2.status == AgentStatus.running) = false := by simp [hr]
    rw [if_neg (by simp [hb])]
    exact h q hq

theorem foldl_register_records_ok (defs : List AgentDefinition) :
    ∀ st : OrchestratorState, records_ok st →
      records_ok (defs.foldl register_agent st) := by
  induction defs with
  | nil => exact fun st h => h
  | cons d rest ih => exact fun st h => ih _ (fun p hp => h p hp)

theorem init_state_records_ok (defs : List AgentDefinition) (hm ho : Bool)
    (wfs : List WorkflowDefinition) : records_ok (init_state defs hm ho wfs) := by
  unfold init_state
  exact foldl_register_records_ok defs _ (fun p hp => (List.not_mem_nil p hp).elim)

/-- C2 (amended): in every reachable state, every record has its `start_time`
set (a total field), a RUNNING record has no `end_time`, a COMPLETED record
has one, and a STOPPED record has none — `shutdown` marks records STOPPED
without writing `end_time`, and the supervision sweep force-fails records
without writing it, so the spec's claim that every terminal record carries
both timestamps does not hold for FAILED-by-sweep and STOPPED records. -/
theorem reachable_record_timestamp_invariant (st : OrchestratorState) (h : Reach st) :
    records_ok st := by
  induction h with
  | init defs hm ho wfs => exact init_state_records_ok defs hm ho wfs
  | register st d hr ih => exact fun p hp => ih p hp
  | spawn st req t0 t1 gen hr ih => exact spawn_agent_records_ok st req t0 t1 gen ih
  | spawn_many st calls hr ih => exact spawn_multiple_records_ok calls st ih
  | hang st req t0 t1 hr ih => exact spawn_hang_records_ok st req t0 t1 ih
  | late_finish st agent_id gr t1 hr hp ih => exact spawn_finish_records_ok st agent_id gr t1 ih
  | workflow st wid ip meta render backends hr ih =>
      exact execute_workflow_records_ok st wid ip meta render backends ih
  | sweep st now hr ih => exact check_agent_health_records_ok st now ih
  | shutdown_op st hr ih => exact shutdown_records_ok st ih

theorem reachable_record_timestamp_invariant_witness :
    records_ok (shutdown (spawn_hang echo_state ⟨"echo", "ping", []⟩ 0 0)) :=
  reachable_record_timestamp_invariant _
    (Reach.shutdown_op _ (Reach.hang _ ⟨"echo", "ping", []⟩ 0 0
      (Reach.init [echo_def] true false [])))

/-- C2 (counterexample): a spawn whose backend call never returns leaves its
record RUNNING; `shutdown` then marks it STOPPED without setting `end_time`,
so the reachable state violates the claimed invariant (`STOPPED` implies
`endTime` set). -/
theorem record_invariant_counterexample :
    Reach (shutdown (spawn_hang echo_state ⟨"echo", "ping", []⟩ 0 0)) ∧
    ¬ claimed_record_invariant (shutdown (spawn_hang echo_state ⟨"echo", "ping", []⟩ 0 0)) := by
  constructor
  · exact Reach.shutdown_op _ (Reach.hang _ ⟨"echo", "ping", []⟩ 0 0
      (Reach.init [echo_def] true false []))
  · unfold claimed_record_invariant
    decide

/-! ## C3: stability of terminal records -/

theorem dictGet_map_value {α : Type} (g : α → α) (l : List (String × α)) (k : String) :
    dictGet (l.map (fun p => (p.1, g p.2))) k = (dictGet l k).map g := by
  induction l with
  | nil => rfl
  | cons p rest ih =>
      by_cases h : p.1 = k
      · simp [dictGet, h]
      · have hb : (p.1 == k) = false := by simp [h]
        simp [dictGet, hb, ih]

theorem shutdown_lookup (st : OrchestratorState) (id : String) :
    dictGet (shutdown st).spawned_agents id =
      (dictGet st.spawned_agents id).map (fun a =>
        if a.status == AgentStatus.running then { a with status := AgentStatus.stopped }
        else a) := by
  unfold shutdown
  dsimp only
  exact dictGet_map_value (fun a =>
    if a.status == AgentStatus.running then { a with status := AgentStatus.stopped }
    else a) st.spawned_agents id

/-- A sweep iteration for a key other than `id` touches neither `id`'s
record nor `id`'s supervision entry. -/
theorem health_step_frame (now : Nat) (st : OrchestratorState) (k id : String)
    (hne : k ≠ id) :
    dictGet (health_step now st k).spawned_agents id = dictGet st.spawned_agents id ∧
    dictGet (health_step now st k).supervision_metrics id =
      dictGet st.supervision_metrics id := by
  unfold health_step
  cases hm : dictGet st.supervision_metrics k with
  | none => exact ⟨rfl, rfl⟩
  | some m =>
      dsimp only
      split
      · split
        · split
          · split
            · exact ⟨dictGet_insert_ne _ _ _ _ hne, dictGet_insert_ne _ _ _ _ hne⟩
            · exact ⟨rfl, dictGet_insert_ne _ _ _ _ hne⟩
          · exact ⟨rfl, dictGet_insert_ne _ _ _ _ hne⟩
        · exact ⟨rfl, rfl⟩
      · exact ⟨rfl, rfl⟩

/-- A sweep iteration for `id` is a no-op when `id`'s supervision entry is
absent or not RUNNING. -/
theorem health_step_no_fire (now : Nat) (st : OrchestratorState) (id : String)
    (h : ∀ m, dictGet st.supervision_metrics id = some m →
      m.status ≠ AgentStatus.running) :
    health_step now st id = st := by
  unfold health_step
  cases hm : dictGet st.supervision_metrics id with
  | none => rfl
  | some m =>
      dsimp only
      rw [if_neg (by simp [h m hm])]

theorem foldl_health_frame (now : Nat) (ks : List String) (id : String) :
    ∀ st : OrchestratorState,
      (∀ m, dictGet st.supervision_metrics id = some m →
        m.status ≠ AgentStatus.running) →
      dictGet (ks.foldl (health_step now) st).spawned_agents id =
        dictGet st.spawned_agents id ∧
      dictGet (ks.foldl (health_step now) st).supervision_metrics id =
        dictGet st.supervision_metrics id := by
  induction ks with
  | nil => exact fun st h => ⟨rfl, rfl⟩
  | cons k ks ih =>
      intro st h
      by_cases hk : k = id
      · subst hk
        have hno := health_step_no_fire now st k h
        simp only [List.foldl_cons, hno]
        exact ih st h
      · have hf := health_step_frame now st k id hk
        have h' : ∀ m, dictGet (health_step now st k).supervision_metrics id = some m →
            m.status ≠ AgentStatus.running := by
          intro m hm
          exact h m (hf.2 ▸ hm)
        obtain ⟨ha, hb⟩ := ih (health_step now st k) h'
        exact ⟨ha.trans hf.1, hb.trans hf.2⟩

/-- C3 (amended): a terminal record whose paired supervision entry is absent
or itself terminal — which is how the spawn completion and failure paths
leave things — is never changed by a supervision sweep or by shutdown: its
status, result and error stay equal. The unamended claim fails in two ways,
exhibited by `terminal_record_overwritten_counterexample`: a late backend
response overwrites a record the sweep had already force-failed, and the
sweep itself can re-target records whose supervision entry was left RUNNING
(sweep-forced failures and shutdown-stopped records). -/
theorem terminal_records_stable (st : OrchestratorState) (now : Nat) (id : String)
    (a : SpawnedAgent) (ha : dictGet st.spawned_agents id = some a)
    (hterm : a.status = AgentStatus.completed ∨ a.status = AgentStatus.failed ∨
      a.status = AgentStatus.stopped)
    (hm : ∀ m ∈ dictGet st.supervision_metrics id, m.status ≠ AgentStatus.running) :
    dictGet (check_agent_health st now).spawned_agents id = some a ∧
    dictGet (shutdown st).spawned_agents id = some a := by
  have hm' : ∀ m, dictGet st.supervision_metrics id = some m →
      m.status ≠ AgentStatus.running := by
    intro m hmm
    exact hm m (by rw [hmm]; rfl)
  constructor
  · exact ((foldl_health_frame now (st.supervision_metrics.map Prod.fst) id st hm').1).trans ha
  · rw [shutdown_lookup, ha]
    have hb : (a.status == AgentStatus.running) = false := by
      rcases hterm with h | h | h <;> simp [h]
    simp [hb]
    intro h
    rw [h] at hb
    simp at hb

/-- The state of a hung echo execution after four stale supervision sweeps:
the sweep has force-failed the record with the missed-heartbeats error. -/
def c3_swept : OrchestratorState :=
  check_agent_health (check_agent_health (check_agent_health
    (check_agent_health (spawn_hang echo_state ⟨"echo", "ping", []⟩ 0 0) 100) 200) 300) 400

/-- C3 (counterexample): the hung execution's record is terminal (FAILED by
the sweep, with the missed-heartbeats error), its backend call is still
pending, and when the late backend response arrives the completion path
overwrites the terminal record to COMPLETED — the "first terminal transition
wins" rule is not enforced. Both states are reachable. -/
theorem terminal_record_overwritten_counterexample :
    Reach c3_swept ∧
    (dictGet c3_swept.spawned_agents (gen_agent_id "echo" 0 "ping")).map
      SpawnedAgent.status = some AgentStatus.failed ∧
    (dictGet c3_swept.spawned_agents (gen_agent_id "echo" 0 "ping")).map
      SpawnedAgent.error = some (some health_check_error) ∧
    gen_agent_id "echo" 0 "ping" ∈ c3_swept.pending ∧
    (dictGet (spawn_finish c3_swept (gen_agent_id "echo" 0 "ping")
        (Except.ok "late response") 500).spawned_agents
      (gen_agent_id "echo" 0 "ping")).map SpawnedAgent.status =
      some AgentStatus.completed ∧
    Reach (spawn_finish c3_swept (gen_agent_id "echo" 0 "ping")
      (Except.ok "late response") 500) := by
  have hr : Reach c3_swept :=
    Reach.sweep _ 400 (Reach.sweep _ 300 (Reach.sweep _ 200 (Reach.sweep _ 100
      (Reach.hang _ ⟨"echo", "ping", []⟩ 0 0 (Reach.init [echo_def] true false [])))))
  refine ⟨hr, by decide, by decide, by decide, by decide, ?_⟩
  exact Reach.late_finish _ _ _ 500 hr (by decide)

set_option maxRecDepth 8192 in
theorem terminal_records_stable_witness :
    dictGet (check_agent_health
        (spawn_agent echo_state ⟨"echo", "ping", []⟩ 0 1 echo_gen).2 999).spawned_agents
      (gen_agent_id "echo" 0 "ping") =
      dictGet (spawn_agent echo_state ⟨"echo", "ping", []⟩ 0 1 echo_gen).2.spawned_agents
        (gen_agent_id "echo" 0 "ping") := by
  have h := terminal_records_stable
    (spawn_agent echo_state ⟨"echo", "ping", []⟩ 0 1 echo_gen).2 999
    (gen_agent_id "echo" 0 "ping")
    ((dictGet (spawn_agent echo_state ⟨"echo", "ping", []⟩ 0 1 echo_gen).2.spawned_agents
      (gen_agent_id "echo" 0 "ping")).getD default_spawned)
    (by decide) (by decide) (by decide)
  rw [h.1]
  decide

/-! ## C10: extractor output bounds -/

/-- C10: every list-valued field produced by the agent-type-specific
extractors is bounded — at most 5 insights, patterns, recommendations,
inefficiencies and automation opportunities, and at most 10 topics —
regardless of the raw model text. -/
theorem extractor_output_bounds (response : String) :
    (extract_insights response).length ≤ 5 ∧
    (extract_patterns response).length ≤ 5 ∧
    (extract_recommendations response).length ≤ 5 ∧
    (extract_inefficiencies response).length ≤ 5 ∧
    (extract_automation_opportunities response).length ≤ 5 ∧
    (extract_topics response).length ≤ 10 :=
  ⟨List.length_take_le 5 _, List.length_take_le 5 _, List.length_take_le 5 _,
   List.length_take_le 5 _, List.length_take_le 5 _, List.length_take_le 10 _⟩

/-! ## C9: parsing is total and preserves the raw response -/

/-- C9: `_parse_agent_response` is a total function of the raw text (the
embedding is a plain function, mirroring the source's straight-line string
processing which raises nothing), its `raw_response` field always equals the
raw response, and the spec's echo scenario holds: spawning `"echo"` with a
backend echoing its prompt yields a COMPLETED record whose
`result.raw_response` contains `"ping"`. -/
theorem parse_response_total_and_echo :
    (∀ (agent_def : AgentDefinition) (response : String) (agent : SpawnedAgent) (now : Nat),
      (parse_agent_response agent_def response agent now).raw_response = response) ∧
    ((spawn_agent echo_state ⟨"echo", "ping", []⟩ 0 1 echo_gen).1.toOption.map
        (fun a => (a.status, a.result.map (fun r => containsSubstr r.raw_response "ping"))) =
      some (AgentStatus.completed, some true)) := by
  constructor
  · intro agent_def response agent now
    rfl
  · decide

/-! ## C8: provider resolution and `modelProviderUsed` -/

def oai_def : AgentDefinition :=
  { id := "oai", display_name := "OAI", model := "openai/gpt-4",
    tool_names := [], spawnable_agents := [], instructions_prompt := "" }

/-- Providers configured without an OpenAI key: minimax and ollama only. -/
def oai_state : OrchestratorState := init_state [oai_def] true false []

/-- C8 (counterexample): for the definition requesting `"openai/gpt-4"` with
no openai provider configured, `_get_llm_provider` silently falls back to
minimax — the backend oracle returns the name of the provider that actually
served the call, and it is `"minimax"` — while the completed record's
`llm_provider` field says `"openai"`. The substitution is invisible in
`modelProviderUsed`. The final state is reachable. -/
theorem model_provider_used_counterexample :
    get_llm_provider oai_state.llm_providers "openai/gpt-4" = some "minimax" ∧
    ((spawn_agent oai_state ⟨"oai", "hi", []⟩ 0 1 (fun prov _ => Except.ok prov)).1.toOption.map
        (fun a => (a.status, a.llm_provider, a.result.map AgentResult.raw_response))) =
      some (AgentStatus.completed, some "openai", some "minimax") ∧
    ("openai" : String) ≠ "minimax" ∧
    Reach (spawn_agent oai_state ⟨"oai", "hi", []⟩ 0 1 (fun prov _ => Except.ok prov)).2 := by
  refine ⟨by decide, by decide, by decide, ?_⟩
  exact Reach.spawn _ ⟨"oai", "hi", []⟩ 0 1 _ (Reach.init [oai_def] true false [])

/-- C8 (amended): if no provider resolves, the execution fails with the
explicit no-provider error; a completed execution's `llm_provider` always
records the *requested* model's provider prefix, not necessarily the
provider that served the call — resolution falls back to minimax, then
ollama, so the served provider is the requested prefix or one of those two
fallbacks, and the substitution is not reflected in `llm_provider`. -/
theorem llm_provider_resolution_amended (st : OrchestratorState) (req : SpawnRequest)
    (t0 t1 : Nat) (gen : GenFun) :
    (∀ a, (spawn_agent st req t0 t1 gen).1 = Except.ok a →
      a.status = AgentStatus.completed →
      ∃ d, dictGet st.agents req.agent_type = some d ∧
        a.llm_provider = some (model_provider d.model) ∧
        get_llm_provider st.llm_providers d.model ≠ none) ∧
    (∀ a d, (spawn_agent st req t0 t1 gen).1 = Except.ok a →
      dictGet st.agents req.agent_type = some d →
      get_llm_provider st.llm_providers d.model = none →
      a.status = AgentStatus.failed ∧ a.error = some (no_provider_error d.model)) ∧
    (∀ (providers : List String) (model p : String),
      get_llm_provider providers model = some p →
      p = model_provider model ∨ p = "minimax" ∨ p = "ollama") := by
  refine ⟨?_, ?_, ?_⟩
  · intro a ha hcomp
    rcases spawn_agent_spec st req t0 t1 gen with
      ⟨hnone, herr, _⟩ | ⟨_, _, herr, _⟩ | ⟨d, hd, hlt, a0, hok, _, _, _, _, _, _, _, hmatch⟩
    · rw [herr] at ha; exact absurd ha (by simp)
    · rw [herr] at ha; exact absurd ha (by simp)
    · rw [hok] at ha
      have haa : a = a0 := by injection ha with h; exact h.symm
      subst haa
      refine ⟨d, hd, ?_⟩
      cases hp : get_llm_provider st.llm_providers d.model with
      | none =>
          rw [hp] at hmatch
          rw [hmatch.1] at hcomp
          exact absurd hcomp (by simp)
      | some p =>
          rw [hp] at hmatch
          dsimp only at hmatch
          exact ⟨hmatch.1, by simp⟩
  · intro a d ha hd0 hprov0
    rcases spawn_agent_spec st req t0 t1 gen with
      ⟨hnone, herr, _⟩ | ⟨_, _, herr, _⟩ | ⟨d', hd', hlt, a0, hok, _, _, _, _, _, _, _, hmatch⟩
    · rw [herr] at ha; exact absurd ha (by simp)
    · rw [herr] at ha; exact absurd ha (by simp)
    · rw [hok] at ha
      have haa : a = a0 := by injection ha with h; exact h.symm
      subst haa
      have hdd : d' = d := by
        rw [hd0] at hd'
        injection hd' with h
        exact h.symm
      subst hdd
      rw [hprov0] at hmatch
      exact ⟨hmatch.1, hmatch.2.1⟩
  · intro providers model p h
    unfold get_llm_provider at h
    dsimp only at h
    split_ifs at h with h1 h2 h3
    · exact Or.inl (Option.some.inj h).symm
    · exact Or.inr (Or.inl (Option.some.inj h).symm)
    · exact Or.inr (Or.inr (Option.some.inj h).symm)

set_option maxRecDepth 8192 in
theorem llm_provider_resolution_amended_witness :
    ∃ d, dictGet oai_state.agents "oai" = some d ∧
      ((spawn_agent oai_state ⟨"oai", "hi", []⟩ 0 1
          (fun prov _ => Except.ok prov)).1.toOption.getD default_spawned).llm_provider =
        some (model_provider d.model) ∧
      get_llm_provider oai_state.llm_providers d.model ≠ none :=
  (llm_provider_resolution_amended oai_state ⟨"oai", "hi", []⟩ 0 1
      (fun prov _ => Except.ok prov)).1
    ((spawn_agent oai_state ⟨"oai", "hi", []⟩ 0 1
      (fun prov _ => Except.ok prov)).1.toOption.getD default_spawned)
    (by rfl) (by rfl)

/-! ## C7: metrics snapshot -/

/-- Terminal executions as the spec counts them (refinement-side definition
following the spec's words, for comparison with `get_metrics`). -/
def terminal_executions (st : OrchestratorState) : List SpawnedAgent :=
  (st.spawned_agents.map Prod.snd).filter (fun a =>
    a.status == AgentStatus.completed || a.status == AgentStatus.failed ||
      a.status == AgentStatus.stopped)

/-- Total duration across terminal executions, per the spec's words. -/
def terminal_total_duration (st : OrchestratorState) : Nat :=
  ((terminal_executions st).map (fun a => a.duration_ms.getD 0)).sum

/-- One completed echo execution (duration 1000 ms). -/
def c7_completed_state : OrchestratorState :=
  (spawn_agent echo_state ⟨"echo", "ping", []⟩ 0 1 echo_gen).2

/-- ... plus one still-RUNNING (hung) execution. -/
def c7_mixed_state : OrchestratorState :=
  spawn_hang c7_completed_state ⟨"echo", "pong", []⟩ 2 2

/-- ... plus one failed execution instead (for the spec's concrete
1-completed/1-failed scenario). -/
def c7_two_state : OrchestratorState :=
  (spawn_agent c7_completed_state ⟨"echo", "fail", []⟩ 2 3
    (fun _ _ => Except.error "boom")).2

set_option maxRecDepth 8192 in
/-- C7 (counterexample): in a reachable state with one completed execution
(duration 1000 ms) and one still-RUNNING execution, `get_metrics` reports an
average of 500 — the total duration divided by the number of ALL records —
whereas the claim's average over terminal executions is 1000/1 = 1000. -/
theorem get_metrics_avg_counterexample :
    Reach c7_mixed_state ∧
    (terminal_executions c7_mixed_state).length = 1 ∧
    terminal_total_duration c7_mixed_state = 1000 ∧
    (get_metrics c7_mixed_state).avg_duration_ms = 500 ∧
    (get_metrics c7_mixed_state).avg_duration_ms ≠
      (terminal_total_duration c7_mixed_state : ℚ) /
        ((terminal_executions c7_mixed_state).length : ℚ) := by
  have htot : (List.filterMap (fun p => p.2.duration_ms) c7_mixed_state.spawned_agents).sum
      = 1000 := by decide
  have hlen : c7_mixed_state.spawned_agents.length = 2 := by decide
  have hemp : c7_mixed_state.spawned_agents.isEmpty = false := by decide
  have havg : (get_metrics c7_mixed_state).avg_duration_ms = 500 := by
    unfold get_metrics
    dsimp only
    rw [htot, hlen, hemp]
    norm_num
  refine ⟨?_, by decide, by decide, havg, ?_⟩
  · exact Reach.hang _ ⟨"echo", "pong", []⟩ 2 2
      (Reach.spawn _ ⟨"echo", "ping", []⟩ 0 1 echo_gen (Reach.init [echo_def] true false []))
  · rw [havg]
    rw [show terminal_total_duration c7_mixed_state = 1000 from by decide]
    rw [show (terminal_executions c7_mixed_state).length = 1 from by decide]
    norm_num

set_option maxRecDepth 8192 in
/-- C7 (amended): `get_metrics` is a pure function of the state (by
construction of the embedding); its per-status counts are the stored
tallies, and the spec's concrete scenario holds (after one completed and one
failed execution it reports completed=1, failed=1, total=2); the total
duration sums the records carrying a `duration_ms` (only the spawn success
path sets one); but the average divides that total by the number of ALL
stored records — not by the number of terminal executions as claimed. -/
theorem get_metrics_spec_amended :
    (∀ st : OrchestratorState, st.spawned_agents ≠ [] →
      (get_metrics st).avg_duration_ms =
        ((get_metrics st).total_duration_ms : ℚ) / (st.spawned_agents.length : ℚ)) ∧
    (∀ st : OrchestratorState,
      (get_metrics st).agents_total = st.spawned_agents.length ∧
      (get_metrics st).agents_completed =
        (st.spawned_agents.filter (fun p => p.2.status == AgentStatus.completed)).length ∧
      (get_metrics st).agents_failed =
        (st.spawned_agents.filter (fun p => p.2.status == AgentStatus.failed)).length ∧
      (get_metrics st).total_duration_ms =
        (st.spawned_agents.filterMap (fun p => p.2.duration_ms)).sum) ∧
    ((get_metrics c7_two_state).agents_completed = 1 ∧
      (get_metrics c7_two_state).agents_failed = 1 ∧
      (get_metrics c7_two_state).agents_total = 2 ∧
      Reach c7_two_state) := by
  refine ⟨?_, fun st => ⟨rfl, rfl, rfl, rfl⟩, by decide, by decide, by decide, ?_⟩
  · intro st h
    have hemp : st.spawned_agents.isEmpty = false := by
      cases hl : st.spawned_agents with
      | nil => exact absurd hl h
      | cons a l => rfl
    unfold get_metrics
    dsimp only
    rw [hemp]
    norm_num
  · exact Reach.spawn _ ⟨"echo", "fail", []⟩ 2 3 (fun _ _ => Except.error "boom")
      (Reach.spawn _ ⟨"echo", "ping", []⟩ 0 1 echo_gen (Reach.init [echo_def] true false []))

set_option maxRecDepth 8192 in
theorem get_metrics_spec_amended_witness :
    (get_metrics c7_mixed_state).avg_duration_ms =
      ((get_metrics c7_mixed_state).total_duration_ms : ℚ) /
        (c7_mixed_state.spawned_agents.length : ℚ) :=
  get_metrics_spec_amended.1 c7_mixed_state (by decide)

/-! ## C5: fan-out returns -/

theorem spawn_agent_ok_terminal (st : OrchestratorState) (req : SpawnRequest) (t0 t1 : Nat)
    (gen : GenFun) :
    ∀ a, (spawn_agent st req t0 t1 gen).1 = Except.ok a →
      a.status = AgentStatus.completed ∨ a.status = AgentStatus.failed := by
  intro a ha
  rcases spawn_agent_spec st req t0 t1 gen with
    ⟨_, herr, _⟩ | ⟨_, _, herr, _⟩ | ⟨d, hd, hlt, a0, hok, _, _, _, _, _, _, _, hmatch⟩
  · rw [herr] at ha; exact absurd ha (by simp)
  · rw [herr] at ha; exact absurd ha (by simp)
  · rw [hok] at ha
    have haa : a = a0 := by injection ha with h; exact h.symm
    subst haa
    cases hp : get_llm_provider st.llm_providers d.model with
    | none => rw [hp] at hmatch; exact Or.inr hmatch.1
    | some p =>
        rw [hp] at hmatch
        dsimp only at hmatch
        cases hg : gen p (build_full_prompt d.instructions_prompt req.prompt) with
        | ok r => rw [hg] at hmatch; exact Or.inl hmatch.2.1
        | error e => rw [hg] at hmatch; exact Or.inr hmatch.2.1

/-- C5 (counterexample): a single request whose backend call fails is
returned by `spawn_multiple_agents` as a FAILED record — execution failures
are returned as values (spawn returns the failed record rather than
raising), so the returned list is not the list of COMPLETED records only. -/
theorem spawn_multiple_returns_failed_counterexample :
    ((spawn_multiple_agents echo_state
        [⟨⟨"echo", "ping", []⟩, 0, 1, fun _ _ => Except.error "boom"⟩]).1.map
      (fun a => a.status)) = [AgentStatus.failed] := by
  decide

/-- Five fan-out requests: two target an unregistered agent type (admission
failures), one fails at the backend, two succeed. -/
def c5_calls : List SpawnCall :=
  [⟨⟨"echo", "a", []⟩, 0, 1, echo_gen⟩,
   ⟨⟨"nope", "b", []⟩, 2, 3, echo_gen⟩,
   ⟨⟨"echo", "c", []⟩, 4, 5, fun _ _ => Except.error "boom"⟩,
   ⟨⟨"nope", "d", []⟩, 6, 7, echo_gen⟩,
   ⟨⟨"echo", "e", []⟩, 8, 9, echo_gen⟩]

set_option maxRecDepth 8192 in
/-- C5 (amended): `spawn_multiple_agents` raises nothing (it is total by
construction, mirroring `gather(..., return_exceptions=True)`); every
returned record is terminal — COMPLETED or FAILED, execution failures
included — and only requests rejected at admission (or cancelled) are
dropped: with 5 requests of which 2 fail admission, exactly 3 records come
back, one of them FAILED. -/
theorem spawn_multiple_returns_amended :
    (∀ (st : OrchestratorState) (calls : List SpawnCall),
      ∀ a ∈ (spawn_multiple_agents st calls).1,
        a.status = AgentStatus.completed ∨ a.status = AgentStatus.failed) ∧
    ((spawn_multiple_agents echo_state c5_calls).1.map (fun a => a.status) =
      [AgentStatus.completed, AgentStatus.failed, AgentStatus.completed]) ∧
    (spawn_multiple_agents echo_state c5_calls).1.length = 3 := by
  refine ⟨?_, by decide, by decide⟩
  intro st calls
  induction calls generalizing st with
  | nil =>
      intro a ha
      exact absurd ha (by simp [spawn_multiple_agents])
  | cons c rest ih =>
      intro a ha
      unfold spawn_multiple_agents at ha
      dsimp only at ha
      rcases hsp : (spawn_agent st c.request c.t0 c.t1 c.gen).1 with e | a0
      · rw [hsp] at ha
        dsimp only at ha
        exact ih _ a ha
      · rw [hsp] at ha
        dsimp only at ha
        rcases List.mem_cons.mp ha with h | h
        · subst h
          exact spawn_agent_ok_terminal st c.request c.t0 c.t1 c.gen a hsp
        · exact ih _ a h

set_option maxRecDepth 8192 in
theorem spawn_multiple_returns_amended_witness :
    ((spawn_multiple_agents echo_state c5_calls).1.headD default_spawned).status =
        AgentStatus.completed ∨
      ((spawn_multiple_agents echo_state c5_calls).1.headD default_spawned).status =
        AgentStatus.failed :=
  spawn_multiple_returns_amended.1 echo_state c5_calls _ (by decide)

/-! ## C6: supervision sweep semantics -/

theorem dictGet_some_mem_keys {α : Type} (l : List (String × α)) (k : String) (v : α)
    (h : dictGet l k = some v) : k ∈ l.map Prod.fst := by
  induction l with
  | nil => simp [dictGet] at h
  | cons p rest ih =>
      by_cases hp : p.1 = k
      · simp [hp]
      · have hb : (p.1 == k) = false := by simp [hp]
        simp only [List.map_cons, List.mem_cons]
        refine Or.inr (ih ?_)
        obtain ⟨k0, v0⟩ := p
        simpa [dictGet, hb] using h

theorem foldl_health_frame_not_mem (now : Nat) (ks : List String) (id : String) :
    ∀ st : OrchestratorState, id ∉ ks →
      dictGet (ks.foldl (health_step now) st).spawned_agents id =
        dictGet st.spawned_agents id ∧
      dictGet (ks.foldl (health_step now) st).supervision_metrics id =
        dictGet st.supervision_metrics id := by
  induction ks with
  | nil => exact fun st _ => ⟨rfl, rfl⟩
  | cons k ks ih =>
      intro st hid
      have hk : k ≠ id := fun h => hid (by simp [h])
      have hf := health_step_frame now st k id hk
      have hrest := ih (health_step now st k) (fun h => hid (by simp [h]))
      exact ⟨hrest.1.trans hf.1, hrest.2.trans hf.2⟩

/-- The effect of the sweep iteration for `id` itself when the entry is
RUNNING and stale: increment `missed_heartbeats`, set `health_status` to
degraded (or unhealthy past 3), and past 3 force the paired record FAILED
with the missed-heartbeats error. -/
theorem health_step_fire_lookup (now : Nat) (st : OrchestratorState) (id : String)
    (m : SupervisionMetrics) (hm : dictGet st.supervision_metrics id = some m)
    (hrun : m.status = AgentStatus.running)
    (hstale : m.heartbeat_interval * 2 < now - m.last_heartbeat) :
    (dictGet (health_step now st id).supervision_metrics id =
      some { m with missed_heartbeats := m.missed_heartbeats + 1,
                    health_status :=
                      if 3 < m.missed_heartbeats + 1 then "unhealthy" else "degraded" }) ∧
    (dictGet (health_step now st id).spawned_agents id =
      if 3 < m.missed_heartbeats + 1 then
        (dictGet st.spawned_agents id).map (fun a =>
          { a with status := AgentStatus.failed, error := some health_check_error })
      else dictGet st.spawned_agents id) := by
  unfold health_step
  rw [hm]
  dsimp only
  rw [if_pos (by simp [hrun])]
  rw [if_pos hstale]
  by_cases h3 : 3 < m.missed_heartbeats + 1
  · rw [if_pos h3]
    cases hr : dictGet st.spawned_agents id with
    | none =>
        dsimp only
        constructor
        · rw [dictGet_insert_self]
          simp [h3]
        · rw [if_pos h3, hr]
          rfl
    | some a =>
        dsimp only
        constructor
        · rw [dictGet_insert_self]
          simp [h3]
        · rw [dictGet_insert_self, if_pos h3]
          rfl
  · rw [if_neg h3]
    constructor
    · rw [dictGet_insert_self]
      simp [h3]
    · rw [if_neg h3]

/-- C6: for a SupervisionMetrics entry in RUNNING state (paired with a
still-running execution), a sweep at `now` with
`now - lastHeartbeat > 2 × heartbeatInterval` increments `missedHeartbeats`
and sets `healthStatus` to degraded; once the count exceeds 3 it sets
unhealthy and forces the paired record to FAILED with the fixed
missed-heartbeats error message — reclaiming hung executions without caller
action. (`hnodup` reflects that Python dict keys are unique.) -/
theorem sweep_missed_heartbeat_spec (st : OrchestratorState) (now : Nat) (id : String)
    (m : SupervisionMetrics)
    (hnodup : (st.supervision_metrics.map Prod.fst).Nodup)
    (hm : dictGet st.supervision_metrics id = some m)
    (hrun : m.status = AgentStatus.running)
    (hstale : m.heartbeat_interval * 2 < now - m.last_heartbeat) :
    (dictGet (check_agent_health st now).supervision_metrics id =
      some { m with missed_heartbeats := m.missed_heartbeats + 1,
                    health_status :=
                      if 3 < m.missed_heartbeats + 1 then "unhealthy" else "degraded" }) ∧
    (3 < m.missed_heartbeats + 1 →
      ∀ a, dictGet st.spawned_agents id = some a →
        dictGet (check_agent_health st now).spawned_agents id =
          some { a with status := AgentStatus.failed,
                        error := some health_check_error }) := by
  obtain ⟨l1, l2, hks⟩ := List.append_of_mem (dictGet_some_mem_keys _ _ _ hm)
  unfold check_agent_health
  rw [hks, List.foldl_append, List.foldl_cons]
  have hnd : (l1 ++ id :: l2).Nodup := hks ▸ hnodup
  rcases List.nodup_append.mp hnd with ⟨hn1, hn2, hdisj⟩
  have hid2 : id ∉ l2 := (List.nodup_cons.mp hn2).1
  have hid1 : id ∉ l1 := fun hmem => hdisj hmem (by simp)
  have hfr1 := foldl_health_frame_not_mem now l1 id st hid1
  have hm1 : dictGet (l1.foldl (health_step now) st).supervision_metrics id = some m :=
    hfr1.2.trans hm
  have hfl := health_step_fire_lookup now (l1.foldl (health_step now) st) id m hm1 hrun hstale
  have hfr2 := foldl_health_frame_not_mem now l2 id
    (health_step now (l1.foldl (health_step now) st) id) hid2
  constructor
  · rw [hfr2.2, hfl.1]
  · intro h3 a ha
    rw [hfr2.1, hfl.2, if_pos h3, hfr1.1, ha]
    rfl

/-- The hung echo execution's supervision entry after three stale sweeps. -/
def c6_swept3 : OrchestratorState :=
  check_agent_health (check_agent_health (check_agent_health
    (spawn_hang echo_state ⟨"echo", "ping", []⟩ 0 0) 100) 200) 300

def c6_metric : SupervisionMetrics :=
  { agent_id := gen_agent_id "echo" 0 "ping", status := .running, last_heartbeat := 0,
    heartbeat_interval := 30, missed_heartbeats := 3, tasks_completed := 0,
    tasks_failed := 0, health_status := "degraded" }

set_option maxRecDepth 8192 in
theorem sweep_missed_heartbeat_spec_witness :
    (dictGet (check_agent_health c6_swept3 400).spawned_agents
        (gen_agent_id "echo" 0 "ping")).map (fun a => (a.status, a.error)) =
      some (AgentStatus.failed, some health_check_error) := by
  have h := sweep_missed_heartbeat_spec c6_swept3 400 (gen_agent_id "echo" 0 "ping")
    c6_metric (by decide) (by decide) (by decide) (by decide)
  rw [h.2 (by decide) ((dictGet c6_swept3.spawned_agents
    (gen_agent_id "echo" 0 "ping")).getD default_spawned) (by decide)]
  rfl

/-! ## C4: workflow ordering, prompt composition, failure abort -/

theorem dictInsert_append {α : Type} (l : List (String × α)) (k : String) (v : α)
    (h : k ∉ l.map Prod.fst) : dictInsert l k v = l ++ [(k, v)] := by
  induction l with
  | nil => rfl
  | cons p rest ih =>
      have hk : p.1 ≠ k := fun he => h (by simp [he])
      have hb : (p.1 == k) = false := by simp [hk]
      simp only [dictInsert, hb]
      rw [ih (fun hm => h (by simp [hm]))]
      simp

/-- The `results` map built by the step loop lists exactly the ids of the
executed steps, in declared order, appended to whatever was accumulated; a
run that reports no error executed every step. -/
theorem run_steps_result_keys (wid : String) (meta : List (String × String))
    (render : Option AgentResult → String) (backends : Nat → StepBackend) :
    ∀ (steps : List WorkflowStep) (st : OrchestratorState) (idx : Nat)
      (sr : List (String × Option AgentResult)) (res : List (String × StepEntry)),
      (res.map Prod.fst ++ steps.map WorkflowStep.id).Nodup →
      ∃ k, k ≤ steps.length ∧
        (run_steps wid meta render backends st idx steps sr res).2.1.map Prod.fst =
          res.map Prod.fst ++ (steps.map WorkflowStep.id).take k ∧
        ((run_steps wid meta render backends st idx steps sr res).1 = none →
          k = steps.length) := by
  intro steps
  induction steps with
  | nil =>
      intro st idx sr res hnd
      exact ⟨0, Nat.le_refl 0, by simp [run_steps], fun _ => rfl⟩
  | cons s rest ih =>
      intro st idx sr res hnd
      have hsid : s.id ∉ res.map Prod.fst := by
        intro hmem
        rcases List.nodup_append.mp hnd with ⟨h1, h2, hdisj⟩
        exact hdisj hmem (by simp)
      unfold run_steps
      cases hdep : s.dependencies.find? (fun dep_id => (dictGet sr dep_id).isNone) with
      | some dep =>
          dsimp only
          exact ⟨0, Nat.zero_le _, by simp, fun h => absurd h (by simp)⟩
      | none =>
          dsimp only
          split
          · exact ⟨0, Nat.zero_le _, by simp, fun h => absurd h (by simp)⟩
          · rename_i a0 heq
            have hins : ∀ entry : StepEntry, dictInsert res s.id entry = res ++ [(s.id, entry)] :=
              fun entry => dictInsert_append res s.id entry hsid
            split
            · refine ⟨1, by simp, ?_, fun h => absurd h (by simp)⟩
              rw [hins]
              simp
            · have hnd' : ((res ++ [(s.id,
                  (⟨a0.id, a0.status.value, a0.result, a0.duration_ms⟩ : StepEntry))]).map
                    Prod.fst ++ rest.map WorkflowStep.id).Nodup := by
                simpa using hnd
              rw [hins]
              obtain ⟨k, hk, hkeys, herr⟩ := ih _ (idx + 1) _ _ hnd'
              refine ⟨k + 1, by simpa using hk, ?_, ?_⟩
              · rw [hkeys]
                simp
              · intro h
                rw [herr h]
                simp

/-- A step whose spawned execution comes back FAILED terminates the loop at
once: the remaining steps are never consumed, the accumulated results gain
only the failing step's entry, and the state is the post-spawn state of the
failing step. -/
theorem run_steps_abort_on_failure (wid : String) (meta : List (String × String))
    (render : Option AgentResult → String) (backends : Nat → StepBackend)
    (st : OrchestratorState) (idx : Nat) (s : WorkflowStep) (rest : List WorkflowStep)
    (sr : List (String × Option AgentResult)) (res : List (String × StepEntry))
    (hdep : s.dependencies.find? (fun dep_id => (dictGet sr dep_id).isNone) = none)
    (a : SpawnedAgent)
    (hspawn : (spawn_agent st
        ⟨s.agent, build_step_prompt render s.prompt sr,
          dictInsert (dictInsert meta "workflow_id" wid) "step_id" s.id⟩
        (backends idx).t0 (backends idx).t1 (backends idx).gen).1 = Except.ok a)
    (hfail : a.status = AgentStatus.failed) :
    run_steps wid meta render backends st idx (s :: rest) sr res =
      (some ("Workflow step " ++ s.id ++ " failed: " ++ pyStrOptStr a.error),
       dictInsert res s.id ⟨a.id, a.status.value, a.result, a.duration_ms⟩,
       (spawn_agent st
         ⟨s.agent, build_step_prompt render s.prompt sr,
           dictInsert (dictInsert meta "workflow_id" wid) "step_id" s.id⟩
         (backends idx).t0 (backends idx).t1 (backends idx).gen).2) := by
  unfold run_steps
  rw [hdep]
  dsimp only
  rw [hspawn]
  dsimp only
  rw [if_pos (by simp [hfail])]

/-- When some step reported an error, `execute_workflow` returns (it does
not raise) the "failed" aggregate carrying the partial results and the
surfaced error. -/
theorem execute_workflow_failure (st : OrchestratorState) (wid ip : String)
    (meta : List (String × String)) (render : Option AgentResult → String)
    (backends : Nat → StepBackend) (wf : WorkflowDefinition)
    (hw : dictGet st.workflows wid = some wf) (e : String)
    (herr : (run_steps wid meta render backends
      (set_workflow_status st wid "running") 0 wf.steps [] []).1 = some e) :
    (execute_workflow st wid ip meta render backends).1 =
      Except.ok { workflow_id := wid, status := "failed",
                  results := (run_steps wid meta render backends
                    (set_workflow_status st wid "running") 0 wf.steps [] []).2.1,
                  error := some e, duration_ms := none } := by
  unfold execute_workflow
  rw [hw]
  dsimp only
  rw [herr]

/-- The spec's three-step workflow: C depends on B depends on A. -/
def stepA : WorkflowStep :=
  { id := "wfA-step-0", agent := "echo", prompt := "promptA", dependencies := [] }

def stepB : WorkflowStep :=
  { id := "wfA-step-1", agent := "echo", prompt := "promptB", dependencies := ["wfA-step-0"] }

def stepC : WorkflowStep :=
  { id := "wfA-step-2", agent := "echo", prompt := "promptC", dependencies := ["wfA-step-1"] }

def wfA : WorkflowDefinition :=
  { id := "wfA", name := "wfA", description := "", steps := [stepA, stepB, stepC],
    agents := ["echo"] }

def wf_state : OrchestratorState := init_state [echo_def] true false [wfA]

/-- A rendering of stored step results (models Python `str()` on them). -/
def render_raw : Option AgentResult → String
  | some r => r.raw_response
  | none => "None"

def ok_backends : Nat → StepBackend :=
  fun idx => ⟨idx, idx, fun _ _ => Except.ok ("result" ++ toString idx)⟩

def fail_backends : Nat → StepBackend :=
  fun idx =>
    if idx == 1 then ⟨idx, idx, fun _ _ => Except.error "boom"⟩
    else ⟨idx, idx, fun _ _ => Except.ok ("result" ++ toString idx)⟩

set_option maxRecDepth 16384 in
/-- C4: `execute_workflow` runs steps strictly in declared order — the
executed step ids are an in-order prefix of the declared ids, all of them
when no step failed; each step's spawned prompt is the step's own prompt
followed (when prior step results exist) by every previously-completed
step's result rendered as `"Step {id}: {result}"` joined by newlines (the
source prefixes the rendered block with a fixed context header); a FAILED
step stops the loop at once — no later step is spawned — and the workflow
returns the "failed" aggregate carrying the partial results and the
failure. The spec's three-step scenario is verified concretely in both
modes: step C's prompt contains step A's and step B's results verbatim, and
when step B fails, step C is never spawned and the workflow is "failed". -/
theorem execute_workflow_spec :
    (∀ (render : Option AgentResult → String) (p : String),
      build_step_prompt render p [] = p) ∧
    (∀ (render : Option AgentResult → String) (p : String)
        (sr : List (String × Option AgentResult)), sr ≠ [] →
      build_step_prompt render p sr =
        p ++ "\n\nContext from previous steps:\n" ++
          pyJoin "\n" (sr.map (fun q => "Step " ++ q.1 ++ ": " ++ render q.2))) ∧
    (∀ (wid : String) (meta : List (String × String))
        (render : Option AgentResult → String) (backends : Nat → StepBackend)
        (steps : List WorkflowStep) (st : OrchestratorState) (idx : Nat)
        (sr : List (String × Option AgentResult)) (res : List (String × StepEntry)),
      (res.map Prod.fst ++ steps.map WorkflowStep.id).Nodup →
      ∃ k, k ≤ steps.length ∧
        (run_steps wid meta render backends st idx steps sr res).2.1.map Prod.fst =
          res.map Prod.fst ++ (steps.map WorkflowStep.id).take k ∧
        ((run_steps wid meta render backends st idx steps sr res).1 = none →
          k = steps.length)) ∧
    (∀ (wid : String) (meta : List (String × String))
        (render : Option AgentResult → String) (backends : Nat → StepBackend)
        (st : OrchestratorState) (idx : Nat) (s : WorkflowStep)
        (rest : List WorkflowStep) (sr : List (String × Option AgentResult))
        (res : List (String × StepEntry)),
      s.dependencies.find? (fun dep_id => (dictGet sr dep_id).isNone) = none →
      ∀ a, (spawn_agent st
          ⟨s.agent, build_step_prompt render s.prompt sr,
            dictInsert (dictInsert meta "workflow_id" wid) "step_id" s.id⟩
          (backends idx).t0 (backends idx).t1 (backends idx).gen).1 = Except.ok a →
        a.status = AgentStatus.failed →
        run_steps wid meta render backends st idx (s :: rest) sr res =
          (some ("Workflow step " ++ s.id ++ " failed: " ++ pyStrOptStr a.error),
           dictInsert res s.id ⟨a.id, a.status.value, a.result, a.duration_ms⟩,
           (spawn_agent st
             ⟨s.agent, build_step_prompt render s.prompt sr,
               dictInsert (dictInsert meta "workflow_id" wid) "step_id" s.id⟩
             (backends idx).t0 (backends idx).t1 (backends idx).gen).2)) ∧
    (∀ (st : OrchestratorState) (wid ip : String) (meta : List (String × String))
        (render : Option AgentResult → String) (backends : Nat → StepBackend)
        (wf : WorkflowDefinition),
      dictGet st.workflows wid = some wf →
      ∀ e, (run_steps wid meta render backends
          (set_workflow_status st wid "running") 0 wf.steps [] []).1 = some e →
        (execute_workflow st wid ip meta render backends).1 =
          Except.ok { workflow_id := wid, status := "failed",
                      results := (run_steps wid meta render backends
                        (set_workflow_status st wid "running") 0 wf.steps [] []).2.1,
                      error := some e, duration_ms := none }) ∧
    (((execute_workflow wf_state "wfA" "init" [] render_raw ok_backends).1.toOption.map
        (fun r => (r.status, r.results.map Prod.fst, r.error))) =
      some ("completed", ["wfA-step-0", "wfA-step-1", "wfA-step-2"], none)) ∧
    (((execute_workflow wf_state "wfA" "init" [] render_raw ok_backends).2.spawned_agents.map
        (fun p => p.2.prompt)) =
      ["promptA",
       "promptB\n\nContext from previous steps:\nStep wfA-step-0: result0",
       "promptC\n\nContext from previous steps:\nStep wfA-step-0: result0\nStep wfA-step-1: result1"]) ∧
    (((execute_workflow wf_state "wfA" "init" [] render_raw fail_backends).1.toOption.map
        (fun r => (r.status, r.error, r.results.map (fun q => (q.1, q.2.status))))) =
      some ("failed", some "Workflow step wfA-step-1 failed: boom",
        [("wfA-step-0", "completed"), ("wfA-step-1", "failed")])) ∧
    ((execute_workflow wf_state "wfA" "init" [] render_raw fail_backends).2.spawned_agents.length
      = 2) ∧
    ((dictGet (execute_workflow wf_state "wfA" "init" [] render_raw
        fail_backends).2.workflows "wfA").map WorkflowDefinition.status = some "failed") ∧
    Reach (execute_workflow wf_state "wfA" "init" [] render_raw fail_backends).2 := by
  refine ⟨fun render p => rfl, ?_, run_steps_result_keys, ?_, ?_,
    by decide, by decide, by decide, by decide, by decide, ?_⟩
  · intro render p sr hsr
    unfold build_step_prompt
    rw [if_neg (by simp [hsr])]
  · intro wid meta render backends st idx s rest sr res hdep a hspawn hfail
    exact run_steps_abort_on_failure wid meta render backends st idx s rest sr res hdep
      a hspawn hfail
  · intro st wid ip meta render backends wf hw e herr
    exact execute_workflow_failure st wid ip meta render backends wf hw e herr
  · exact Reach.workflow _ "wfA" "init" [] render_raw fail_backends
      (Reach.init [echo_def] true false [wfA])

set_option maxRecDepth 8192 in
theorem execute_workflow_spec_witness :
    ∃ k, k ≤ [stepA, stepB, stepC].length ∧
      (run_steps "wfA" [] render_raw ok_backends
          (set_workflow_status wf_state "wfA" "running") 0 [stepA, stepB, stepC]
          [] []).2.1.map Prod.fst =
        ([] : List (String × StepEntry)).map Prod.fst ++
          (([stepA, stepB, stepC].map WorkflowStep.id).take k) ∧
      ((run_steps "wfA" [] render_raw ok_backends
          (set_workflow_status wf_state "wfA" "running") 0 [stepA, stepB, stepC]
          [] []).1 = none → k = [stepA, stepB, stepC].length) :=
  execute_workflow_spec.2.2.1 "wfA" [] render_raw ok_backends [stepA, stepB, stepC]
    (set_workflow_status wf_state "wfA" "running") 0 [] [] (by decide)
